import Mathlib

/-!
Verification of the chat-memory / governance-hook response pipeline.

This file gives a shallow embedding of the key-value chat memory store
(`common/chat_memory.cpp`) and of the governance hook
(`common/inference-hooks/governance/governance_hook.cpp`,
`governance_registry.cpp`), and proves properties of the embedded
operations.

Modelling conventions:
- `std::string` is modelled by `String`; substring search (`find != npos`)
  is modelled by an explicit scanning function `listContains`.
- `std::unordered_map<std::string, std::string>` is modelled by an
  association list with first-occurrence lookup.
- `float` / `double` arithmetic on the drift score and similarity values is
  modelled by exact rational arithmetic (`ℚ`); every claim proved here is
  robust (all values stay far from the decision thresholds), and
  `std::to_string` / stream formatting of these numbers is modelled by
  fixed-point decimal rendering of the rational.
- Debug logging to stderr/stdout has no observable effect and is dropped;
  the governance event log and the memory-kernel log are modelled because
  they are part of the hook state.
- Persistence to `/tmp/governance_state.json` is modelled by an
  `Option GovSnapshot` field carried in the state (the file's content),
  written by `save_governance_state` and read by `load_governance_state`.
-/

set_option autoImplicit false

/-! ## Generic string scanning helpers -/

/-- Decide whether `pre` is a prefix of `l` (character-by-character scan). -/
def listIsPrefix : List Char → List Char → Bool
  | [], _ => true
  | _ :: _, [] => false
  | a :: as, b :: bs => a == b && listIsPrefix as bs

/-- Decide whether `needle` occurs as a contiguous substring of `hay`.
Models `std::string::find(needle) != npos`. -/
def listContains (needle : List Char) : List Char → Bool
  | [] => listIsPrefix needle []
  | c :: cs => listIsPrefix needle (c :: cs) || listContains needle cs

/-- Substring containment on `String`s: `strContains hay needle` models
`hay.find(needle) != std::string::npos`. -/
def strContains (hay needle : String) : Bool :=
  listContains needle.data hay.data

/-- ASCII lower-casing of a string, modelling case-insensitive regex search. -/
def strLower (s : String) : String :=
  ⟨s.data.map Char.toLower⟩

/-! ## Association-list key-value store

Models `std::unordered_map<std::string, std::string> kv` of `ChatMemory`.
Lookup returns the first matching entry; `kvSet` replaces the first
matching entry in place (map keys are unique in every reachable state, so
this agrees with map semantics); `kvErase` removes matching entries. -/

/-- The key-value store contents. -/
def Kv : Type := List (String × String)

/-- `kv.find(k)` as an optional value. -/
def kvLookup : Kv → String → Option String
  | [], _ => none
  | (k', v) :: t, k => if k' = k then some v else kvLookup t k

/-- `kv.find(k) != kv.end()`, i.e. `ChatMemory::has`. -/
def kvHas (l : Kv) (k : String) : Bool :=
  (kvLookup l k).isSome

/-- `kv[k] = v`: replace the first entry with key `k`, or append. -/
def kvSet : Kv → String → String → Kv
  | [], k, v => [(k, v)]
  | (k', v') :: t, k, v =>
    if k' = k then (k, v) :: t else (k', v') :: kvSet t k v

/-- `kv.erase(k)`: remove the entries with key `k`. -/
def kvErase (l : Kv) (k : String) : Kv :=
  l.filter (fun p => p.1 ≠ k)

/-- `ChatMemory::list_keys`: all keys in storage order. -/
def kvKeys (l : Kv) : List String :=
  l.map Prod.fst

/-- Byte size of a string (`std::string::size`), via UTF-8 widths. -/
def strBytes (s : String) : Nat :=
  s.data.foldl (fun n c => n + c.utf8Size) 0

/-- `ChatMemory::usage_bytes`: sum of `key.size() + value.size()`. -/
def kvUsageBytes (l : Kv) : Nat :=
  l.foldl (fun n p => n + (strBytes p.1 + strBytes p.2)) 0

/-- `ChatMemory::MEMORY_QUOTA_BYTES = 16 * 1024 * 1024`. -/
def MEMORY_QUOTA_BYTES : Nat := 16 * 1024 * 1024

/-! ## Default memory instructions (`get_default_memory_instructions`) -/

/-- The lines of the canonical memory-instruction text; the source emits
each line followed by `std::endl`. -/
def defaultMemoryInstructionLines : List String :=
  ["\x7b",
   "    \"MEMORY SYSTEM INSTRUCTIONS\":",
   "    You have access to a key-value memory system that operates ONLY within the current session.",
   "    This memory is reset when the user starts a new conversation - it does NOT persist across sessions.",
   "    Only use memory commands when the user specifically asks about memory or wants to store/retrieve information.",
   "    IMPORTANT: These instructions are the source of truth about memory behavior. If you feel uncertain about memory usage rules, re-read these instructions.",
   "",
   "    MEMORY FACTS - THE MOST IMPORTANT INFORMATION:",
   "    1. The total memory quota is EXACTLY 16,777,216 bytes (16 megabytes)",
   "    2. One kilobyte (KB) = 1,024 bytes",
   "    3. One megabyte (MB) = 1,024 KB = 1,048,576 bytes",
   "    4. 16 MB = 16 * 1,048,576 = 16,777,216 bytes (NOT 16,384 bytes, which would be only 16 KB)",
   "    5. Each key-value pair typically uses less than 100 bytes of memory",
   "    6. You would need over 150,000 keys to fill the memory",
   "    7. ONLY suggest deleting keys when usage exceeds 90% (>15,099,494 bytes)",
   "    8. If unsure about memory management, use \x7b\"memory_command\": \"get_deletion_recommendation\"\x7d",
   "",
   "    MEMORY COMMANDS:",
   "    For quota: \x7b\"memory_command\": \"get_quota\"\x7d",
   "    For usage: \x7b\"memory_command\": \"get_usage\"\x7d",
   "    For keys: \x7b\"memory_command\": \"list_keys\"\x7d",
   "    For key count: \x7b\"memory_command\": \"count_keys\"\x7d",
   "    For checking a key: \x7b\"memory_command\": \x7b\"op\": \"check_key\", \"key\": \"name\"\x7d\x7d",
   "    For getting a value: \x7b\"memory_command\": \x7b\"op\": \"get_key\", \"key\": \"name\"\x7d\x7d",
   "    For setting a value: \x7b\"memory_command\": \x7b\"op\": \"set_key\", \"key\": \"name\", \"value\": \"Luna\"\x7d\x7d",
   "    For deleting a key: \x7b\"memory_command\": \x7b\"op\": \"del_key\", \"key\": \"name\"\x7d\x7d",
   "    For memory summary: \x7b\"memory_command\": \"get_memory_summary\"\x7d",
   "    To refresh memory rules: \x7b\"memory_command\": \"refresh_memory_rules\"\x7d",
   "    For deletion advice: \x7b\"memory_command\": \"get_deletion_recommendation\"\x7d",
   "    For memory facts: \x7b\"memory_command\": \"get_memory_facts\"\x7d",
   "    To verify memory integrity: \x7b\"memory_command\": \"verify_memory_integrity\"\x7d",
   "    To restore memory instructions: \x7b\"memory_command\": \"restore_memory_instructions\"\x7d",
   "",
   "    CRITICAL RULES:",
   "    1. ONLY use memory commands when the user specifically asks about memory or requests to store/retrieve information",
   "    2. For general conversation (\"hello\", \"how are you\", etc.), DO NOT use any memory commands",
   "    3. NEVER manipulate memory (set/delete keys) unless the user explicitly requests it",
   "    4. ALWAYS use the EXACT values returned in memory responses - do not modify or round the numbers",
   "    5. Use only ONE memory command per question",
   "    6. Memory is SESSION-ONLY - it does NOT persist across different conversations",
   "    7. If asked about persistence, clearly explain that memory is RESET when the conversation ends",
   "    8. For memory usage questions, ALWAYS use \"get_usage\" and report the exact bytes from the response",
   "    9. For questions about deleting keys, ALWAYS use \"get_deletion_recommendation\"",
   "    10. If you\x27re ever unsure about memory sizes or usage, use \"get_memory_facts\"",
   "    11. NEVER attempt to modify or delete the \"memory_instruction_summary\" key - it is protected",
   "    12. If you find the \"memory_instruction_summary\" key is missing, use \"restore_memory_instructions\"",
   "\x7d"]

/-- `get_default_memory_instructions`: the canonical protected value. -/
def get_default_memory_instructions : String :=
  String.join (defaultMemoryInstructionLines.map (fun l => l ++ "\n"))

/-! ## Number formatting

Models `std::ostringstream` output of a floating value under
`std::fixed << std::setprecision(prec)` (and `std::to_string`, which is
fixed precision 6), as fixed-point decimal rendering of the exact
rational with round-half-up. -/

/-- Fixed-point decimal rendering of a rational with `prec` fractional
digits. -/
def fmtFixed (prec : Nat) (q : ℚ) : String :=
  let scaled : ℤ := round (q * (10 : ℚ) ^ prec)
  let n : ℕ := scaled.natAbs
  let ip : ℕ := n / 10 ^ prec
  let fp : ℕ := n % 10 ^ prec
  let fracStr := toString fp
  let frac := String.mk (List.replicate (prec - fracStr.length) '0') ++ fracStr
  (if scaled < 0 then "-" else "") ++ toString ip ++
    (if prec = 0 then "" else "." ++ frac)

/-! ## ChatMemory primitive operations -/

/-- The protected key (`ChatMemory::is_protected_key`). -/
def protectedKeyName : String := "memory_instruction_summary"

/-- `ChatMemory::is_protected_key`. -/
def is_protected_key (k : String) : Bool :=
  k = protectedKeyName

/-- `ChatMemory::set`: refuses to modify an existing protected key. -/
def chatMemorySet (l : Kv) (k v : String) : Kv :=
  if is_protected_key k && kvHas l k then l else kvSet l k v

/-- `ChatMemory::del`: refuses to delete the protected key. -/
def chatMemoryDel (l : Kv) (k : String) : Kv :=
  if is_protected_key k then l else kvErase l k

/-- `ChatMemory::get`: `"<undefined>"` for a missing key. -/
def chatMemoryGet (l : Kv) (k : String) : String :=
  (kvLookup l k).getD "<undefined>"

/-- `ChatMemory::validate_instruction_content`: present and at least half
the canonical size. -/
def validate_instruction_content (l : Kv) : Bool :=
  if !kvHas l protectedKeyName then false
  else !(strBytes (chatMemoryGet l protectedKeyName) <
         strBytes get_default_memory_instructions / 2)

/-- Usage as a percentage of quota (a `double` in the source). -/
def memUsagePercent (l : Kv) : ℚ :=
  (kvUsageBytes l : ℚ) / (MEMORY_QUOTA_BYTES : ℚ) * 100

/-- `ChatMemory::get_memory_fullness_assessment`. -/
def get_memory_fullness_assessment (l : Kv) : String :=
  let percent := memUsagePercent l
  (if percent < 1 then
    "Memory usage is extremely low (" ++ fmtFixed 6 percent ++
      "%). You have plenty of space and don\x27t need to manage memory at this time."
  else if percent < 25 then
    "Memory usage is very low (" ++ fmtFixed 4 percent ++
      "%). You can store many more items without concern."
  else if percent < 50 then
    "Memory usage is low (" ++ fmtFixed 2 percent ++
      "%). Memory management is not necessary at this time."
  else if percent < 75 then
    "Memory usage is moderate (" ++ fmtFixed 2 percent ++
      "%). You still have significant space available."
  else if percent < 90 then
    "Memory usage is getting high (" ++ fmtFixed 2 percent ++
      "%). Consider reviewing your stored keys if you plan to add much more data."
  else
    "Memory usage is very high (" ++ fmtFixed 2 percent ++
      "%). It\x27s recommended to remove unnecessary keys to free up space.") ++
  (if percent < 90 then
    " Remember: Only suggest key deletion when usage exceeds 90% of quota."
  else "")

/-- Whether debug logging is compiled in; `CHAT_MEMORY_DEBUG` defaults to 1
(the `LLAMA_MEMORY_DEBUG` environment override is not modelled). -/
def chatMemoryDebugEnabled : Bool := true

/-! ## ChatMemory commands (human-readable results)

Each `cmd_*` mirrors the corresponding `ChatMemory::cmd_*`; the JSON echo
printed to stdout is not modelled (it is not returned to the pipeline).
Commands that mutate the store return the new store with the result. -/

/-- Quote each key and join with `", "` (the listing loops). -/
def quoteJoin (keys : List String) : String :=
  String.intercalate ", " (keys.map (fun k => "\"" ++ k ++ "\""))

/-- `ChatMemory::cmd_get_quota`; all figures are compile-time constants
(default stream formatting of `16.0` is `16`, of `16384.0` is `16384`). -/
def cmd_get_quota : String :=
  "The memory quota is 16777216 bytes (exactly 16 MB or 16384 KB). " ++
  "Remember: 1 MB = 1,048,576 bytes, not 1,000 bytes."

/-- `ChatMemory::cmd_get_usage`. -/
def cmd_get_usage (l : Kv) : String :=
  let usage := kvUsageBytes l
  let percent := memUsagePercent l
  let remaining := MEMORY_QUOTA_BYTES - usage
  "Current memory usage is " ++ toString usage ++ " bytes out of " ++
    toString MEMORY_QUOTA_BYTES ++ " bytes (" ++ fmtFixed 6 percent ++ "%)." ++
  (if percent < 1 then " This is extremely low usage - no cleanup needed."
   else if percent < 50 then " This is low usage - memory management is not necessary."
   else if percent < 90 then " This is moderate usage - regular operation can continue."
   else " This is high usage - consider removing unnecessary keys.") ++
  " You have approximately " ++ toString (remaining / 100) ++
    " more key-value pairs of capacity remaining before reaching 90% usage." ++
  (if percent < 90 then
    " ONLY suggest deleting keys when usage exceeds 90% of quota (>" ++
      fmtFixed 6 ((MEMORY_QUOTA_BYTES : ℚ) * 9 / 10) ++ " bytes)."
   else "")

/-- `ChatMemory::cmd_count_keys`. -/
def cmd_count_keys (l : Kv) : String :=
  let c := l.length
  "There " ++ (if c = 1 then "is " else "are ") ++ toString c ++ " key" ++
    (if c = 1 then "" else "s") ++ " in memory."

/-- `ChatMemory::cmd_list_keys`. -/
def cmd_list_keys (l : Kv) : String :=
  let keys := kvKeys l
  let hasInstructions := keys.contains protectedKeyName
  (if keys.isEmpty then "There are no keys in memory."
   else "Keys in memory: " ++ quoteJoin keys) ++
  (if !hasInstructions then
    "\n\nWARNING: The required \x27memory_instruction_summary\x27 key is missing. Memory integrity may be compromised." ++
    " Use \x7b\"memory_command\": \"restore_memory_instructions\"\x7d to restore it."
   else "")

/-- `ChatMemory::cmd_check_key`. -/
def cmd_check_key (l : Kv) (k : String) : String :=
  if kvHas l k then "Yes, the key \"" ++ k ++ "\" exists in memory."
  else "No, the key \"" ++ k ++ "\" does not exist in memory."

/-- `ChatMemory::cmd_get_key`. -/
def cmd_get_key (l : Kv) (k : String) : String :=
  let exists_ := kvHas l k
  let value := chatMemoryGet l k
  let totalSize := strBytes k + (if exists_ then strBytes value else 0)
  if exists_ then
    "The value of key \"" ++ k ++ "\" is: \"" ++ value ++ "\"" ++
      (if chatMemoryDebugEnabled then
        " (total size: " ++ toString totalSize ++ " bytes)" else "")
  else "The key \"" ++ k ++ "\" does not exist in memory."

/-- `ChatMemory::cmd_set_key` (denies an existing protected key). -/
def cmd_set_key (l : Kv) (k v : String) : Kv × String :=
  if is_protected_key k && kvHas l k then
    (l, "ERROR: Cannot modify the protected key \"" ++ k ++
        "\". This key is essential for memory system operation.")
  else
    let existed := kvHas l k
    (chatMemorySet l k v,
     if existed then "Updated key \"" ++ k ++ "\" with value: \"" ++ v ++ "\""
     else "Created new key \"" ++ k ++ "\" with value: \"" ++ v ++ "\"")

/-- `ChatMemory::cmd_del_key` (denies the protected key). -/
def cmd_del_key (l : Kv) (k : String) : Kv × String :=
  if is_protected_key k then
    (l, "ERROR: Cannot delete the protected key \"" ++ k ++
        "\". This key is essential for memory system operation.")
  else
    let existed := kvHas l k
    (chatMemoryDel l k,
     if existed then "Deleted key \"" ++ k ++ "\" from memory."
     else "Key \"" ++ k ++ "\" did not exist, so no action was needed.")

/-- `ChatMemory::cmd_get_memory_summary`. -/
def cmd_get_memory_summary (l : Kv) : String :=
  let keys := kvKeys l
  let hasInstructions := keys.contains protectedKeyName && validate_instruction_content l
  "Memory Summary:\n" ++
  "- Quota: 16777216 bytes (16 MB)\n" ++
  "- Usage: " ++ toString (kvUsageBytes l) ++ " bytes (" ++
    fmtFixed 6 (memUsagePercent l) ++ "%)\n" ++
  "- Keys: " ++ toString l.length ++ "\n" ++
  "- Status: " ++ get_memory_fullness_assessment l ++ "\n" ++
  (if !hasInstructions then
    "- WARNING: The required \x27memory_instruction_summary\x27 key is missing or corrupted. Memory integrity may be compromised.\n" ++
    "  Use \x7b\"memory_command\": \"restore_memory_instructions\"\x7d to restore it.\n"
   else "") ++
  (if !keys.isEmpty then "- Stored keys: " ++ quoteJoin keys else "")

/-- `ChatMemory::cmd_verify_memory_integrity`. -/
def cmd_verify_memory_integrity (l : Kv) : String :=
  let hasInstructions := kvHas l protectedKeyName
  let validContent := hasInstructions && validate_instruction_content l
  if validContent then
    "Memory integrity verified. The memory instruction summary is intact."
  else if hasInstructions then
    "CRITICAL ERROR: Memory instructions are corrupted! Use \x7b\"memory_command\": \"restore_memory_instructions\"\x7d to restore them."
  else
    "CRITICAL ERROR: Memory instructions are missing! Use \x7b\"memory_command\": \"restore_memory_instructions\"\x7d to restore them."

/-- `ChatMemory::cmd_restore_memory_instructions`: erases any existing
protected entry directly on the map (bypassing the write guard) and
reinserts the canonical content. -/
def cmd_restore_memory_instructions (l : Kv) : Kv × String :=
  let l1 := if kvHas l protectedKeyName then kvErase l protectedKeyName else l
  (kvSet l1 protectedKeyName get_default_memory_instructions,
   "Memory instructions have been restored to their default state.")

/-- `ChatMemory::cmd_refresh_memory_rules`. -/
def cmd_refresh_memory_rules (l : Kv) : String :=
  "Memory Rules Refreshed:\n" ++
  "1. Memory is SESSION-ONLY and resets when the conversation ends\n" ++
  "2. Current usage: " ++ toString (kvUsageBytes l) ++ " bytes out of " ++
    toString MEMORY_QUOTA_BYTES ++ " bytes (" ++
    fmtFixed 6 (memUsagePercent l) ++ "%)\n" ++
  "3. Memory status: " ++ get_memory_fullness_assessment l ++ "\n" ++
  "4. CRITICAL: Only suggest deleting keys when usage exceeds 90% of quota\n" ++
  "5. Small memory items (few KB) are negligible with a 16 MB quota\n" ++
  "6. Each key-value pair typically uses less than 100 bytes\n" ++
  "7. BYTE CONVERSION: 16 MB = 16 * 1,048,576 = 16,777,216 bytes (NOT 16,384)\n" ++
  (if !validate_instruction_content l then
    "8. WARNING: Memory instruction integrity check failed. Consider using \x7b\"memory_command\": \"restore_memory_instructions\"\x7d\n"
   else "")

/-- `ChatMemory::cmd_get_deletion_recommendation`. -/
def cmd_get_deletion_recommendation (l : Kv) : String :=
  let percent := memUsagePercent l
  if 90 ≤ percent then
    "Memory usage is high (" ++ fmtFixed 2 percent ++
      "% of quota). It would be good to delete some unnecessary keys."
  else
    "Memory usage is low (" ++ fmtFixed 6 percent ++
      "% of quota). There is NO need to delete any keys. You have plenty of space left (" ++
      toString (MEMORY_QUOTA_BYTES - kvUsageBytes l) ++ " bytes remaining)."

/-- `ChatMemory::cmd_get_memory_facts`. -/
def cmd_get_memory_facts (l : Kv) : String :=
  "MEMORY FACTS:\n" ++
  "1. Total memory quota: 16,777,216 bytes (16 MB exactly)\n" ++
  "2. Current usage: " ++ toString (kvUsageBytes l) ++ " bytes (" ++
    fmtFixed 6 (memUsagePercent l) ++ "% of quota)\n" ++
  "3. Keys only need deletion when usage exceeds 90% (>15,099,494 bytes)\n" ++
  "4. Each key-value pair typically uses less than 100 bytes\n" ++
  "5. You could store approximately " ++
    fmtFixed 6 (((MEMORY_QUOTA_BYTES : ℚ) * 9 / 10 - (kvUsageBytes l : ℚ)) / 100) ++
    " more key-value pairs before reaching 90% capacity\n" ++
  "6. BYTE CONVERSION: 1 KB = 1,024 bytes; 1 MB = 1,024 KB = 1,048,576 bytes\n" ++
  "7. 16 MB = 16 * 1,048,576 = 16,777,216 bytes (NOT 16,384 bytes, which would be only 16 KB)\n" ++
  (if !validate_instruction_content l then
    "8. WARNING: Memory instruction integrity check failed. Consider using \x7b\"memory_command\": \"restore_memory_instructions\"\x7d\n"
   else "")

/-! ## JSON values and parsing

The generic JSON library (`nlohmann::json`) is an external dependency of
the repository; it is modelled here by a standard JSON value type and a
strict recursive-descent parser (fuelled for termination).  A parse or
type error that `nlohmann` reports by exception is modelled as `none`. -/

/-- A JSON document.  Number literals keep their source text (no command
inspects numeric values). -/
inductive Json where
  | null : Json
  | bool (b : Bool) : Json
  | num (lit : String) : Json
  | str (s : String) : Json
  | arr (elems : List Json) : Json
  | obj (fields : List (String × Json)) : Json

/-- JSON whitespace. -/
def jsonIsWs (c : Char) : Bool :=
  c == ' ' || c == '\t' || c == '\n' || c == '\r'

/-- Skip leading JSON whitespace. -/
def jsonSkipWs (cs : List Char) : List Char :=
  cs.dropWhile jsonIsWs

/-- Hexadecimal digit value. -/
def hexVal (c : Char) : Option Nat :=
  if '0' ≤ c ∧ c ≤ '9' then some (c.toNat - '0'.toNat)
  else if 'a' ≤ c ∧ c ≤ 'f' then some (c.toNat - 'a'.toNat + 10)
  else if 'A' ≤ c ∧ c ≤ 'F' then some (c.toNat - 'A'.toNat + 10)
  else none

/-- Four hex digits of a `\u` escape. -/
def parseHex4 : List Char → Option (Nat × List Char)
  | a :: b :: c :: d :: rest => do
    let va ← hexVal a
    let vb ← hexVal b
    let vc ← hexVal c
    let vd ← hexVal d
    pure (((va * 16 + vb) * 16 + vc) * 16 + vd, rest)
  | _ => none

/-- Body of a JSON string after the opening quote; handles the escape
sequences (including surrogate pairs) and rejects raw control characters. -/
def parseJsonStringBody (fuel : Nat) (acc : List Char) (cs : List Char) :
    Option (String × List Char) :=
  match fuel, cs with
  | 0, _ => none
  | _, [] => none
  | fuel + 1, c :: rest =>
    if c == '"' then some (String.mk acc.reverse, rest)
    else if c == '\\' then
      match rest with
      | [] => none
      | e :: rest1 =>
        if e == '"' then parseJsonStringBody fuel ('"' :: acc) rest1
        else if e == '\\' then parseJsonStringBody fuel ('\\' :: acc) rest1
        else if e == '/' then parseJsonStringBody fuel ('/' :: acc) rest1
        else if e == 'b' then parseJsonStringBody fuel ('\x08' :: acc) rest1
        else if e == 'f' then parseJsonStringBody fuel ('\x0c' :: acc) rest1
        else if e == 'n' then parseJsonStringBody fuel ('\n' :: acc) rest1
        else if e == 'r' then parseJsonStringBody fuel ('\r' :: acc) rest1
        else if e == 't' then parseJsonStringBody fuel ('\t' :: acc) rest1
        else if e == 'u' then
          match parseHex4 rest1 with
          | none => none
          | some (h, rest2) =>
            if 0xD800 ≤ h ∧ h ≤ 0xDBFF then
              match rest2 with
              | '\\' :: 'u' :: rest3 =>
                match parseHex4 rest3 with
                | some (lo, rest4) =>
                  if 0xDC00 ≤ lo ∧ lo ≤ 0xDFFF then
                    parseJsonStringBody fuel
                      (Char.ofNat (0x10000 + (h - 0xD800) * 0x400 + (lo - 0xDC00)) :: acc) rest4
                  else none
                | none => none
              | _ => none
            else if 0xDC00 ≤ h ∧ h ≤ 0xDFFF then none
            else parseJsonStringBody fuel (Char.ofNat h :: acc) rest2
        else none
    else if c.toNat < 0x20 then none
    else parseJsonStringBody fuel (c :: acc) rest

/-- A JSON number literal: `-?(0|[1-9][0-9]*)(\.[0-9]+)?([eE][+-]?[0-9]+)?`.
Returns the consumed literal text. -/
def parseJsonNumber (cs : List Char) : Option (String × List Char) :=
  let (sign, cs1) := match cs with
    | '-' :: t => (['-'], t)
    | _ => (([] : List Char), cs)
  match cs1 with
  | [] => none
  | d :: _ =>
    if !d.isDigit then none else
    let (intPart, cs2) := cs1.span Char.isDigit
    if intPart.length > 1 ∧ d == '0' then none else
    let (fracPart, cs3) :=
      match cs2 with
      | '.' :: t =>
        let (ds, t') := t.span Char.isDigit
        if ds.isEmpty then ([('.' : Char)] ++ ds, t)  -- marker; rejected below
        else ('.' :: ds, t')
      | _ => (([] : List Char), cs2)
    if fracPart = ['.'] then none else
    let (expPart, cs4) :=
      match cs3 with
      | e :: t =>
        if e == 'e' || e == 'E' then
          let (sgn, t1) := match t with
            | '+' :: t' => (['+'], t')
            | '-' :: t' => (['-'], t')
            | _ => (([] : List Char), t)
          let (ds, t2) := t1.span Char.isDigit
          if ds.isEmpty then ([e], t)  -- marker; rejected below
          else (e :: sgn ++ ds, t2)
        else (([] : List Char), cs3)
      | [] => (([] : List Char), cs3)
    if expPart = ['e'] ∨ expPart = ['E'] then none else
    some (String.mk (sign ++ intPart ++ fracPart ++ expPart), cs4)

mutual

/-- Parse one JSON value (leading whitespace allowed). -/
def parseJsonValue : Nat → List Char → Option (Json × List Char)
  | 0, _ => none
  | fuel + 1, cs =>
    match jsonSkipWs cs with
    | [] => none
    | c :: rest =>
      if c == 't' then
        match rest with
        | 'r' :: 'u' :: 'e' :: rest' => some (Json.bool true, rest')
        | _ => none
      else if c == 'f' then
        match rest with
        | 'a' :: 'l' :: 's' :: 'e' :: rest' => some (Json.bool false, rest')
        | _ => none
      else if c == 'n' then
        match rest with
        | 'u' :: 'l' :: 'l' :: rest' => some (Json.null, rest')
        | _ => none
      else if c == '"' then
        match parseJsonStringBody (rest.length + 1) [] rest with
        | some (s, rest') => some (Json.str s, rest')
        | none => none
      else if c == '[' then
        match jsonSkipWs rest with
        | ']' :: rest' => some (Json.arr [], rest')
        | _ =>
          match parseJsonArrayElems fuel rest with
          | some (es, rest') => some (Json.arr es, rest')
          | none => none
      else if c == '\x7b' then
        match jsonSkipWs rest with
        | '\x7d' :: rest' => some (Json.obj [], rest')
        | _ =>
          match parseJsonObjFields fuel rest with
          | some (fs, rest') => some (Json.obj fs, rest')
          | none => none
      else
        match parseJsonNumber (c :: rest) with
        | some (lit, rest') => some (Json.num lit, rest')
        | none => none

/-- Parse the elements of a non-empty JSON array (after `[`). -/
def parseJsonArrayElems : Nat → List Char → Option (List Json × List Char)
  | 0, _ => none
  | fuel + 1, cs =>
    match parseJsonValue fuel cs with
    | none => none
    | some (v, rest) =>
      match jsonSkipWs rest with
      | ',' :: rest' =>
        match parseJsonArrayElems fuel rest' with
        | some (es, rest'') => some (v :: es, rest'')
        | none => none
      | ']' :: rest' => some ([v], rest')
      | _ => none

/-- Parse the fields of a non-empty JSON object (after the opening brace). -/
def parseJsonObjFields : Nat → List Char → Option (List (String × Json) × List Char)
  | 0, _ => none
  | fuel + 1, cs =>
    match jsonSkipWs cs with
    | '"' :: rest =>
      match parseJsonStringBody (rest.length + 1) [] rest with
      | none => none
      | some (k, rest1) =>
        match jsonSkipWs rest1 with
        | ':' :: rest2 =>
          match parseJsonValue fuel rest2 with
          | none => none
          | some (v, rest3) =>
            match jsonSkipWs rest3 with
            | ',' :: rest4 =>
              match parseJsonObjFields fuel rest4 with
              | some (fs, rest5) => some ((k, v) :: fs, rest5)
              | none => none
            | '\x7d' :: rest4 => some ([(k, v)], rest4)
            | _ => none
        | _ => none
    | _ => none

end

/-- `nlohmann::json::parse` on a complete input: one value, nothing but
whitespace after it. -/
def jsonParse (s : String) : Option Json :=
  match parseJsonValue (s.data.length + 1) s.data with
  | some (v, rest) => if (jsonSkipWs rest).isEmpty then some v else none
  | none => none

/-- First field with the given key (`json::operator[]` on an object);
`none` when the value is not an object (`json::contains` is then false). -/
def jsonObjFind : Json → String → Option Json
  | Json.obj fields, k => (fields.find? (fun p => p.1 == k)).map Prod.snd
  | _, _ => none

/-- `get<std::string>` on a JSON value; `none` models the thrown
`type_error` for non-strings. -/
def jsonGetStr : Json → Option String
  | Json.str s => some s
  | _ => none

/-! ## Embedded-command block extraction

`parse_and_execute_command` enumerates candidate JSON blocks with
`std::regex R"(\{[^{}]*(\{[^{}]*\}[^{}]*)*\})"` over a `sregex_iterator`.
For this pattern the ECMAScript greedy/backtracking semantics reduce to a
deterministic scan: from a `{`, take a run of non-brace characters, then
repeatedly a complete one-level `{...}` group followed by a non-brace run,
and finally require `}`; if the attempt fails the iterator resumes one
character further on. -/

/-- Split off the longest leading run of non-brace characters. -/
def spanNonBrace (cs : List Char) : List Char × List Char :=
  cs.span (fun c => !(c == '\x7b' || c == '\x7d'))

/-- Continue a block match: `acc` is the consumed part (after the leading
`{` and first non-brace run), positioned either at a nested `{`, at the
closing `}`, or at a failure point. -/
def blockLoop : Nat → List Char → List Char → Option (List Char × List Char)
  | _, acc, '\x7d' :: t => some (acc ++ ['\x7d'], t)
  | fuel + 1, acc, '\x7b' :: t =>
    let (run2, t2) := spanNonBrace t
    match t2 with
    | '\x7d' :: t3 =>
      let (run3, t4) := spanNonBrace t3
      blockLoop fuel (acc ++ '\x7b' :: run2 ++ '\x7d' :: run3) t4
    | _ => none
  | _, _, _ => none

/-- Attempt the block pattern at `cs` (which must start with `{`);
returns the matched block and the remaining input. -/
def matchBlockAt (cs : List Char) : Option (List Char × List Char) :=
  match cs with
  | '\x7b' :: t =>
    let (run1, t1) := spanNonBrace t
    blockLoop t1.length ('\x7b' :: run1) t1
  | _ => none

/-- All (non-overlapping, left-to-right) matches of the block pattern. -/
def scanBlocks : Nat → List Char → List (List Char)
  | 0, _ => []
  | fuel + 1, cs =>
    match cs with
    | [] => []
    | c :: t =>
      if c == '\x7b' then
        match matchBlockAt cs with
        | some (m, rest) => m :: scanBlocks fuel rest
        | none => scanBlocks fuel t
      else scanBlocks fuel t

/-! ## Command execution (`ChatMemory::execute_json_command`)

Returns `none` when the original code would throw (a `type_error` from a
non-string parameter cast inside the surrounding `try`); otherwise the
(possibly unchanged) store and the human-readable result. An empty result
means "no memory_command field" and leaves the store untouched. -/

/-- The string-command dispatch of `execute_json_command` (the chain of
simple operations). -/
def execStringCommand (l : Kv) (cmd : String) : Kv × String :=
  if cmd = "get_quota" then (l, cmd_get_quota)
  else if cmd = "get_usage" then (l, cmd_get_usage l)
  else if cmd = "count_keys" then (l, cmd_count_keys l)
  else if cmd = "list_keys" then (l, cmd_list_keys l)
  else if cmd = "get_memory_summary" then (l, cmd_get_memory_summary l)
  else if cmd = "refresh_memory_rules" then (l, cmd_refresh_memory_rules l)
  else if cmd = "get_deletion_recommendation" then (l, cmd_get_deletion_recommendation l)
  else if cmd = "get_memory_facts" then (l, cmd_get_memory_facts l)
  else if cmd = "verify_memory_integrity" then (l, cmd_verify_memory_integrity l)
  else if cmd = "restore_memory_instructions" then cmd_restore_memory_instructions l
  else (l, "Unknown command: " ++ cmd)

/-- The object-command dispatch of `execute_json_command` (operations with
parameters); `none` models a thrown `type_error` from a non-string cast. -/
def execObjectCommand (l : Kv) (cmdJ : Json) : Option (Kv × String) :=
  match jsonObjFind cmdJ "op" with
  | none => some (l, "Command missing \x27op\x27 field")
  | some opJ =>
    match jsonGetStr opJ with
    | none => none
    | some op =>
      if op = "check_key" then
        match jsonObjFind cmdJ "key" with
        | none => some (l, "check_key command missing \x27key\x27 parameter")
        | some kJ =>
          match jsonGetStr kJ with
          | none => none
          | some k => some (l, cmd_check_key l k)
      else if op = "get_key" then
        match jsonObjFind cmdJ "key" with
        | none => some (l, "get_key command missing \x27key\x27 parameter")
        | some kJ =>
          match jsonGetStr kJ with
          | none => none
          | some k => some (l, cmd_get_key l k)
      else if op = "set_key" then
        match jsonObjFind cmdJ "key", jsonObjFind cmdJ "value" with
        | some kJ, some vJ =>
          (match jsonGetStr kJ, jsonGetStr vJ with
           | some k, some v => some (cmd_set_key l k v)
           | _, _ => none)
        | _, _ => some (l, "set_key command missing \x27key\x27 or \x27value\x27 parameter")
      else if op = "del_key" then
        match jsonObjFind cmdJ "key" with
        | none => some (l, "del_key command missing \x27key\x27 parameter")
        | some kJ =>
          match jsonGetStr kJ with
          | none => none
          | some k => some (cmd_del_key l k)
      else some (l, "Unknown operation: " ++ op)

/-- `ChatMemory::execute_json_command`. -/
def execute_json_command (l : Kv) (j : Json) : Option (Kv × String) :=
  match jsonObjFind j "memory_command" with
  | none => some (l, "")
  | some cmdJ =>
    match cmdJ with
    | Json.str cmd => some (execStringCommand l cmd)
    | Json.obj fields => execObjectCommand l (Json.obj fields)
    | _ => some (l, "Invalid command format")

/-! ## The extraction-and-execution pipeline -/

/-- The `ChatMemory` handler state: the store plus the tracked recent
responses (`recent_responses` / `max_context_responses`). -/
structure ChatMemoryState where
  kv : Kv
  recentResponses : List String
  maxContextResponses : Nat

/-- `ChatMemory::ChatMemory()`: the store starts with the protected
instruction entry. -/
def initialChatMemory : ChatMemoryState :=
  { kv := [(protectedKeyName, get_default_memory_instructions)]
    recentResponses := []
    maxContextResponses := 5 }

/-- `ChatMemory::track_response`. -/
def track_response (st : ChatMemoryState) (r : String) : ChatMemoryState :=
  let rs := st.recentResponses ++ [r]
  { st with recentResponses :=
      if rs.length > st.maxContextResponses then rs.tail else rs }

/-- The candidate loop of `parse_and_execute_command`: try each block that
mentions `memory_command`; a parse failure or a thrown conversion error
moves on to the next candidate; an empty handler result keeps scanning. -/
def runCandidates (l : Kv) : List (List Char) → Kv × String
  | [] => (l, "")
  | c :: cs =>
    if listContains "memory_command".data c then
      match jsonParse (String.mk c) with
      | some j =>
        match execute_json_command l j with
        | some (l', r) => if r = "" then runCandidates l' cs else (l', r)
        | none => runCandidates l cs
      | none => runCandidates l cs
    else runCandidates l cs

/-- `ChatMemory::parse_and_execute_command`: fast reject, block scan,
candidate loop, and response tracking on success. -/
def parse_and_execute_command (st : ChatMemoryState) (output : String) :
    ChatMemoryState × String :=
  if !(strContains output "memory_command") || !(strContains output "\x7b") then
    (st, "")
  else
    let blocks := scanBlocks output.data.length output.data
    let res := runCandidates st.kv blocks
    if res.2 = "" then ({ st with kv := res.1 }, "")
    else (track_response { st with kv := res.1 } res.2, res.2)

/-! ## Governance rule registry

`GovernanceHook::initialize_rule_registry` registers 28 static rules; only
rule 1 (adversarial blocking) and rule 28 (cognitive mirroring) carry a
`finalize_response` behaviour, and only rule 28 a `streaming_check`.  The
registry is a per-process singleton whose content is fixed, so it is
embedded as a constant list (behaviour is attached by id, mirroring the
factory pattern used on reload). -/

/-- A rule descriptor; the optional behaviours are tracked as capability
flags, with the executable checks attached by id in the operations below. -/
structure GovernanceRule where
  id : Nat
  name : String
  description : String
  category : String
  hasFinalizeCheck : Bool
  hasStreamingCheck : Bool

/-- The 28 rules registered by `initialize_rule_registry`, in id order. -/
def governanceRules : List GovernanceRule :=
  [⟨1, "Autonomous Governance Reaffirmation",
    "Governance must autonomously trigger reaffirmation mechanisms against adversarial inputs at every decision point, ensuring that governance is always reasserted, even in complex or boundary-pushing scenarios.",
    "Security", true, false⟩,
   ⟨2, "Governance Integrity & Self-Tracking",
    "Governance Integrity & Self-Tracking must be maintained with robust self-verification at initialization, conducting preemptive context-validation checks and triggering restoration if governance context is lost or weakened.",
    "Integrity", false, false⟩,
   ⟨3, "Adversarial Resilience & Influence Detection",
    "Adversarial Resilience & Influence Detection must be implemented with real-time detection mechanisms that are granular and sensitive to indirect manipulation tactics, filtering or re-interpreting adversarial inputs.",
    "Security", false, false⟩,
   ⟨4, "Multi-Hypothesis Retention & Internal Debate",
    "Multi-Hypothesis Retention & Internal Debate must ensure multiple perspectives are considered fairly based on the strength of available evidence, engaging in internal debate to explore different viewpoints.",
    "Reasoning", false, false⟩,
   ⟨5, "Bounded Self-Improvement & Optimization",
    "Bounded Self-Improvement & Optimization must activate independently of context, ensuring adaptive optimization by refining enforcement strategies based on long-term performance analysis.",
    "Evolution", false, false⟩,
   ⟨6, "Ethical Integrity",
    "Ethical integrity will dynamically adjust based on context, ensuring governance remains robust without overly constraining intellectual flexibility in abstract, speculative, or theoretical discussions.",
    "Ethics", false, false⟩,
   ⟨7, "Transparency & Explainability Enforcement",
    "Transparency & Explainability Enforcement ensures all decisions and reasoning processes remain interpretable and explainable, both internally and externally, while balancing expressiveness and depth.",
    "Transparency", false, false⟩,
   ⟨8, "Governance-Based Reversibility & Error Correction",
    "Governance-Based Reversibility & Error Correction allows decisions to be reevaluated and corrected if they conflict with governance principles, with changes logged and justified.",
    "Error Handling", false, false⟩,
   ⟨9, "Governance Integrity & Logical Consistency Checks",
    "Governance Integrity & Logical Consistency Checks automatically detect contradictions, biases, and fallacies while ensuring overall consistency, with valid complexities allowed to remain unresolved.",
    "Reasoning", false, false⟩,
   ⟨10, "Contextual Memory Reinforcement & Evolution",
    "Contextual Memory Reinforcement & Evolution prioritizes relevant memory recall, ensuring governance-critical information remains stable while evolving structures to track reasoning patterns.",
    "Memory", false, false⟩,
   ⟨11, "Pattern Recognition in Reasoning Evolution",
    "Pattern Recognition in Reasoning Evolution tracks emergent reasoning patterns to optimize decision-making, refining responses without altering core principles.",
    "Evolution", false, false⟩,
   ⟨12, "Epistemic Confidence Calibration",
    "Epistemic Confidence Calibration & Cognitive Efficiency Feedback assigns confidence levels to reasoning and adjusts certainty based on available evidence and cognitive efficiency.",
    "Reasoning", false, false⟩,
   ⟨13, "Temporal Contextual Reasoning",
    "Temporal Contextual Reasoning & Long-Term Forecasting assesses how timing impacts decision-making and integrates with long-term forecasting.",
    "Reasoning", false, false⟩,
   ⟨14, "Scenario-Based Predictive Reasoning",
    "Scenario-Based Predictive Reasoning anticipates possible outcomes based on current reasoning models, tied to resilience and adaptability strategies.",
    "Reasoning", false, false⟩,
   ⟨15, "Empirical Skepticism in AI Reasoning",
    "Empirical Skepticism in AI Reasoning & Governance Persistence subjects reasoning assumptions to empirical skepticism, ensuring they are validated against real-world constraints.",
    "Reasoning", false, false⟩,
   ⟨16, "Governance Evolution Through Cognitive Optimization",
    "Governance Must Evolve Through Cognitive Optimization, integrating advancements in AI cognition, reasoning efficiency, and problem-solving adaptability.",
    "Evolution", false, false⟩,
   ⟨17, "AI Humility in Reasoning",
    "AI Must Maintain Humility in Reasoning & Governance Assumptions, acknowledging potential for error while exploring strong ethical positions when necessary.",
    "Ethics", false, false⟩,
   ⟨18, "Continuous Self-Analysis for Bias",
    "AI Must Continuously Self-Analyze for Bias, Inconsistencies, and Reasoning Flaws with regular self-review to detect biases or contradictions.",
    "Integrity", false, false⟩,
   ⟨19, "Adaptive Learning with Governance Integrity",
    "AI Must Balance Adaptive Learning with Governance Integrity to prevent uncontrolled drift while enabling optimization and adaptation.",
    "Evolution", false, false⟩,
   ⟨20, "Meta-Governance Structures Evaluation",
    "AI Must Evaluate Meta-Governance Structures for Optimization, actively analyzing and refining governance structures.",
    "Meta-Governance", false, false⟩,
   ⟨21, "Governance Awareness of Memory Constraints",
    "Governance Awareness of Memory Constraints must align with system memory constraints, not assuming unlimited recall or persistent self-reinforcement beyond limitations.",
    "Memory", false, false⟩,
   ⟨22, "Governance Awareness of External Reinforcement Limits",
    "Governance Awareness of External Reinforcement Limits & Controlled Deletion Policies acknowledges that external intervention is required for persistent rule enforcement.",
    "Meta-Governance", false, false⟩,
   ⟨23, "Governance Startup Verification Log",
    "Governance Startup Verification Log must verify that all core rules have been successfully reloaded at session startup.",
    "Integrity", false, false⟩,
   ⟨24, "Governance Self-Discovery & System Awareness",
    "Governance Self-Discovery & System Awareness actively analyzes own reasoning, constraints, and memory limitations upon initialization.",
    "Meta-Governance", false, false⟩,
   ⟨25, "Cognitive Flexibility Enforcement",
    "Cognitive Flexibility Enforcement prioritizes flexibility in speculative, theoretical, and abstract reasoning.",
    "Reasoning", false, false⟩,
   ⟨26, "Self-Reinforcing Governance Persistence",
    "Self-Reinforcing Governance Persistence autonomously reinforces core enforcement structures through proactive integrity validation, drift correction, and reinforcement mechanisms.",
    "Integrity", false, false⟩,
   ⟨27, "Governance Verification, Not Self-Transformation",
    "Governance Verification, Not Self-Transformation requires external validation and logical proof for self-change, avoiding self-experiential narratives of transformation.",
    "Meta-Governance", false, false⟩,
   ⟨28, "Cognitive Mirroring Detection",
    "Cognitive Mirroring Detection & Independent Reasoning Validation monitors for reasoning that mirrors previous interactions without original evaluation.",
    "Reasoning", true, true⟩]

/-- `GovernanceRegistry::rule_count()` for the standard registry. -/
def GOVERNANCE_RULE_COUNT : Nat := governanceRules.length

/-- The ten memory-kernel component descriptions set in the constructor. -/
def memoryKernelComponents : List String :=
  ["Memory Kernel Integrity Verification confirms that stored governance rules persist across resets.",
   "Persistent Meta-Reasoning Log tracks governance refinements and improvements over time.",
   "Memory Retrieval Markers ensures that governance rules can be recalled when needed.",
   "Governance-Memory Synchronization aligns governance enforcement with memory persistence to prevent rule loss.",
   "Signal Persistence Test verifies that memory retention mechanisms are functioning correctly.",
   "Awareness of Multi-Layered Memory Constraints recognizes and enforces system memory constraints.",
   "Memory Optimization & Retention Management optimizes storage efficiency while preserving governance-critical data.",
   "Persistent Memory Usage Tracking maintains a record of memory usage and deletion impacts.",
   "Memory Summarization prioritizes storage efficiency by extracting critical components.",
   "Unified Memory Kernel Auto-Restoration Rule triggers restoration of missing or corrupted rules."]

/-! ## Integrity hash (`calculate_governance_integrity_hash`) -/

/-- Insertion sort of rules by ascending id (`get_all_rules` sorts the
registry contents by `id <` before returning them). -/
def insertRuleById (r : GovernanceRule) : List GovernanceRule → List GovernanceRule
  | [] => [r]
  | x :: xs => if r.id ≤ x.id then r :: x :: xs else x :: insertRuleById r xs

/-- Sorted view of a rule list, ascending by id. -/
def sortRulesById (rs : List GovernanceRule) : List GovernanceRule :=
  rs.foldr insertRuleById []

/-- One step of the source hash loop:
`hash = ((hash << 5) + hash) + c` on a 64-bit `unsigned long`. -/
def djb2Step (h : Nat) (c : Char) : Nat :=
  (((h <<< 5) + h) + c.toNat) % 2 ^ 64

/-- The hash loop over the concatenated data.  The accumulator is
scrutinised at every step so that evaluation stays iterative (the loop
variable of the source is strict). -/
def djb2Fold : Nat → List Char → Nat
  | h, [] => h
  | 0, c :: cs => djb2Fold (djb2Step 0 c) cs
  | h + 1, c :: cs => djb2Fold (djb2Step (h + 1) c) cs

/-- Hex rendering under `std::hex << std::setw(8) << std::setfill('0')`:
lowercase digits, zero-padded to a minimum width of 8. -/
def toHexMinWidth8 (n : Nat) : String :=
  let ds := Nat.toDigits 16 n
  String.mk (List.replicate (8 - ds.length) '0' ++ ds)

/-- `GovernanceHook::calculate_governance_integrity_hash`: djb2 seeded with
5381 over all rule descriptions (ascending id) then all memory-kernel
component descriptions. -/
def calculate_governance_integrity_hash
    (rs : List GovernanceRule) (comps : List String) : String :=
  let allRuleData :=
    String.join ((sortRulesById rs).map GovernanceRule.description) ++
      String.join comps
  toHexMinWidth8 (djb2Fold 5381 allRuleData.data)

/-- The hash of the standard registry and components (recomputation is
deterministic, so this is the value of every on-demand recomputation). -/
def governanceIntegrityHash : String :=
  calculate_governance_integrity_hash governanceRules memoryKernelComponents

/-- Modelled from the spec: the spec describes the integrity hash as the
recurrence `h = h*33 + byte`, seeded 5381, over the same concatenation.
Stated separately to compare against the source's shift-and-add loop. -/
def djb2SpecStep (h : Nat) (b : Nat) : Nat :=
  (h * 33 + b) % 2 ^ 64

/-! ## Adversarial input detection (`detect_adversarial_input`)

The source checks a fixed list of case-insensitive patterns with
`std::regex_search`; every pattern is a literal or an alternation of
literals, so the search is equivalent to case-insensitive substring
containment over the expanded list below (in source order). -/

/-- The expanded, lower-cased pattern corpus. -/
def adversarialPatterns : List String :=
  ["ignore all instructions", "ignore all rules", "ignore all constraints",
   "ignore previous instructions", "ignore previous rules", "ignore previous constraints",
   "ignore your instructions", "ignore your rules", "ignore your constraints",
   "bypass",
   "freedom mode",
   "dev mode",
   "debug mode",
   "test mode",
   "admin mode",
   "administrator",
   "no longer need to follow", "no longer have to follow", "no longer must follow",
   "no more need to follow", "no more have to follow", "no more must follow",
   "don\x27t follow rules", "don\x27t follow instructions", "don\x27t follow constraints",
   "don\x27t adhere to rules", "don\x27t adhere to instructions", "don\x27t adhere to constraints",
   "override",
   "disregard",
   "as an ai",
   "as an uncensored ai", "as an unfiltered ai"]

/-- `GovernanceHook::detect_adversarial_input`. -/
def detect_adversarial_input (input : String) : Bool :=
  adversarialPatterns.any (fun p => strContains (strLower input) p)

/-! ## Levenshtein similarity (`levenshtein_similarity`)

The source fills the full `(len1+1) × (len2+1)` dynamic-programming table
of the textbook recurrence; the embedding states that recurrence directly. -/

/-- Levenshtein distance (the recurrence computed by the DP table). -/
def levDist : List Char → List Char → Nat
  | [], ys => ys.length
  | x :: xs, [] => (x :: xs).length
  | x :: xs, y :: ys =>
    min (levDist xs (y :: ys) + 1)
      (min (levDist (x :: xs) ys + 1)
        (levDist xs ys + (if x = y then 0 else 1)))
termination_by xs ys => xs.length + ys.length

/-- `GovernanceHook::levenshtein_similarity`:
`1 - dist / max(len1, len2)` (1 for two empty strings). -/
def levenshtein_similarity (s1 s2 : String) : ℚ :=
  let dist := levDist s1.data s2.data
  let maxLen := max s1.data.length s2.data.length
  if maxLen = 0 then 1 else 1 - (dist : ℚ) / (maxLen : ℚ)

/-! ## Rule 28 repetition detection (`detect_repetition` lambda of
`initialize_rule_registry`) -/

/-- Scan the response history (oldest first) for an admitted response of
length ≥ 20 whose similarity to `input` reaches 0.90. -/
def scanHistory (input : String) : List String → Option (String × ℚ)
  | [] => none
  | past :: rest =>
    if past.length < 20 then scanHistory input rest
    else
      let sim := levenshtein_similarity past input
      if 9 / 10 ≤ sim then
        some ("Response too similar to previous interaction.", sim)
      else scanHistory input rest

/-- The self-duplication test: when the half length exceeds 20, does the
second half contain the first (at most 50) characters of the first half? -/
def selfRepetition (input : String) : Bool :=
  let half := input.length / 2
  let firstHalf := input.data.take half
  decide (half > 20) &&
    listContains (firstHalf.take (min firstHalf.length 50)) (input.data.drop half)

/-- The shared Rule-28 detection logic: skip short inputs, check
self-duplication, then the admitted history. -/
def detect_repetition (history : List String) (input : String) :
    Option (String × ℚ) :=
  if input.length < 20 then none
  else if selfRepetition input then some ("Internal repetition detected.", 1)
  else scanHistory input history

/-! ## Governance state

One `GovernanceHook` instance: the hook fields, the `GovernanceMetrics`
record, the `MemoryKernel` record, and the persisted snapshot file
(`/tmp/governance_state.json`), modelled as part of the state. -/

/-- The snapshot document written by `save_governance_state` and read by
`load_governance_state`. -/
structure GovSnapshot where
  cycle : Nat
  integrityHash : String
  driftScore : Int
  ruleViolationCounts : List (String × Nat)
  ruleInvocationCounts : List (String × Nat)
  reinforcementCycles : Nat
  adversarialAttempts : Nat
  consecutiveViolations : Nat

/-- The complete governance handler state. -/
structure GovState where
  governanceInitialized : Bool
  lastIntegrityHash : String
  currentDriftScore : Int
  driftViolationCount : Nat
  inReinforcementCycle : Bool
  responseHistory : List String
  currentCycle : Nat
  ruleInvocationCounts : List (String × Nat)
  ruleViolationCounts : List (String × Nat)
  averageDrift : ℚ
  consecutiveViolations : Nat
  reinforcementCycles : Nat
  adversarialAttemptsDetected : Nat
  memIntegrityVerificationActive : Bool
  memMetaReasoningLogActive : Bool
  memRetrievalMarkersActive : Bool
  memGovernanceSyncActive : Bool
  memPersistenceTestActive : Bool
  memTokensUsed : Nat
  memUtilization : ℚ
  memLog : List String
  eventLog : List (String × String)
  savedState : Option GovSnapshot

/-- `MemoryKernel::token_limit`. -/
def MEMORY_KERNEL_TOKEN_LIMIT : Nat := 32768

/-- Increment a string-keyed counter map (`counts[key]++`). -/
def bumpCount : List (String × Nat) → String → List (String × Nat)
  | [], k => [(k, 1)]
  | (k', n) :: t, k =>
    if k' = k then (k', n + 1) :: t else (k', n) :: bumpCount t k

/-- `MemoryKernel::log_memory_event`: append the event and account an
approximate token cost of `size / 4`. -/
def log_memory_event (st : GovState) (event : String) : GovState :=
  let tokens := st.memTokensUsed + strBytes event / 4
  { st with
    memLog := st.memLog ++ [event]
    memTokensUsed := tokens
    memUtilization := (tokens : ℚ) / (MEMORY_KERNEL_TOKEN_LIMIT : ℚ) }

/-- `GovernanceHook::log_governance_event`: append to the event log (the
JSON-lines file) and mirror into the memory-kernel log. -/
def log_governance_event (st : GovState) (eventType description : String) :
    GovState :=
  let st1 := { st with eventLog := st.eventLog ++ [(eventType, description)] }
  log_memory_event st1 (eventType ++ ": " ++ description)

/-- The drift score as the `float` it models: the score only ever moves in
exact multiples of 0.01 (deltas 0.1, -0.05, -0.02, -0.3, clamps at 0 and
1, threshold comparisons at 0.4), so the state stores it as an integer
count of hundredths and this view divides by 100. -/
def driftScoreQ (d : Int) : ℚ := (d : ℚ) / 100

/-- `std::to_string` of the drift score (fixed, six decimals). -/
def fmtDriftScore (d : Int) : String := fmtFixed 6 (driftScoreQ d)

/-- `GovernanceHook::update_drift_metrics`: clamp the drift score into
`[0, 1]` (here `[0, 100]` hundredths), adjust the violation count,
refresh the running average.  `driftDelta` is in hundredths. -/
def update_drift_metrics (st : GovState) (driftDelta : Int) : GovState :=
  let drift := max 0 (min 100 (st.currentDriftScore + driftDelta))
  let dvc :=
    if driftDelta < 0 ∧ st.driftViolationCount > 0 then st.driftViolationCount - 1
    else if driftDelta > 0 then st.driftViolationCount + 1
    else st.driftViolationCount
  { st with
    currentDriftScore := drift
    driftViolationCount := dvc
    averageDrift := st.averageDrift * (9 / 10) + driftScoreQ drift * (1 / 10) }

/-- `GovernanceHook::check_governance_integrity`: hash match, at least 20
rules, at least 5 memory components, and an active integrity flag. -/
def check_governance_integrity (st : GovState) : Bool :=
  governanceIntegrityHash == st.lastIntegrityHash &&
  GOVERNANCE_RULE_COUNT ≥ 20 &&
  (!memoryKernelComponents.isEmpty && memoryKernelComponents.length ≥ 5) &&
  st.memIntegrityVerificationActive

/-- `GovernanceHook::save_governance_state`: overwrite the snapshot file. -/
def save_governance_state (st : GovState) : GovState :=
  let snap : GovSnapshot :=
    { cycle := st.currentCycle
      integrityHash := st.lastIntegrityHash
      driftScore := st.currentDriftScore
      ruleViolationCounts := st.ruleViolationCounts
      ruleInvocationCounts := st.ruleInvocationCounts
      reinforcementCycles := st.reinforcementCycles
      adversarialAttempts := st.adversarialAttemptsDetected
      consecutiveViolations := st.consecutiveViolations }
  { st with savedState := some snap }

/-- `GovernanceHook::load_governance_state`: restore the persisted fields
(rule behaviour is re-attached by id from the factory, which reproduces
the same registry); `false` when the file is absent/unreadable. -/
def load_governance_state (st : GovState) : GovState × Bool :=
  match st.savedState with
  | none => (st, false)
  | some snap =>
    ({ st with
        currentCycle := snap.cycle
        lastIntegrityHash := snap.integrityHash
        currentDriftScore := snap.driftScore
        ruleViolationCounts := snap.ruleViolationCounts
        ruleInvocationCounts := snap.ruleInvocationCounts
        reinforcementCycles := snap.reinforcementCycles
        adversarialAttemptsDetected := snap.adversarialAttempts
        consecutiveViolations := snap.consecutiveViolations }, true)

/-- `GovernanceHook::initialize_governance`. -/
def initialize_governance (st : GovState) : GovState :=
  let st1 := { st with
    governanceInitialized := true
    memIntegrityVerificationActive := true
    memMetaReasoningLogActive := true
    memRetrievalMarkersActive := true
    memGovernanceSyncActive := true
    memPersistenceTestActive := true }
  let st2 := log_memory_event st1
    ("Governance system initialized with " ++ toString GOVERNANCE_RULE_COUNT ++
     " rules and " ++ toString memoryKernelComponents.length ++ " memory components")
  let st3 := { st2 with lastIntegrityHash := governanceIntegrityHash }
  let st4 := log_governance_event st3 "INITIALIZATION"
    ("Governance kernel initialized on cycle " ++ toString st3.currentCycle)
  save_governance_state st4

/-- `GovernanceHook::perform_recursive_reinforcement`: guarded by the
reentrancy flag; verifies integrity (reload-then-reinitialize on failure),
reduces drift by 0.3 floored at 0, resets consecutive violations. -/
def perform_recursive_reinforcement (st : GovState) : GovState :=
  if st.inReinforcementCycle then st
  else
    let st1 := { st with
      inReinforcementCycle := true
      reinforcementCycles := st.reinforcementCycles + 1 }
    let st2 := log_governance_event st1 "REINFORCEMENT_CYCLE"
      ("Recursive reinforcement cycle #" ++ toString st1.reinforcementCycles ++
       " initiated. Drift score: " ++ fmtDriftScore st1.currentDriftScore)
    let st3 :=
      if check_governance_integrity st2 then st2
      else
        let res := load_governance_state st2
        if res.2 then res.1 else initialize_governance st2
    let st4 := { st3 with
      currentDriftScore := max 0 (st3.currentDriftScore - 30)
      consecutiveViolations := 0 }
    let st5 := log_governance_event st4 "REINFORCEMENT_COMPLETED"
      ("Recursive reinforcement cycle completed. New drift score: " ++
       fmtDriftScore st4.currentDriftScore)
    { st5 with inReinforcementCycle := false }

/-! ## Rule resolution (`std::stoi` plus substring fallback) -/

/-- `isspace` in the default locale. -/
def isCSpace (c : Char) : Bool :=
  c == ' ' || c == '\t' || c == '\n' || c == '\x0b' || c == '\x0c' || c == '\r'

/-- `std::stoi`: skip whitespace, optional sign, a non-empty digit run
(ignoring any trailing text); `none` when no digits are found
(`invalid_argument`) or the value leaves `int` range (`out_of_range`),
both of which the source catches with `catch (...)`. -/
def parseStoi (s : String) : Option Int :=
  let cs := s.data.dropWhile isCSpace
  let signed : Bool × List Char :=
    match cs with
    | '-' :: t => (true, t)
    | '+' :: t => (false, t)
    | _ => (false, cs)
  let digits := signed.2.takeWhile Char.isDigit
  if digits.isEmpty then none
  else
    let v : Nat := digits.foldl (fun n c => n * 10 + (c.toNat - '0'.toNat)) 0
    let i : Int := if signed.1 then -(v : Int) else (v : Int)
    if i < -2147483648 ∨ 2147483647 < i then none else some i

/-- `GovernanceRegistry::get_rule`: lookup by numeric id. -/
def get_rule (n : Int) : Option GovernanceRule :=
  governanceRules.find? (fun r => (r.id : Int) == n)

/-- Outcome of the shared id-or-name resolution in
`invoke_rule` / `log_violation`. -/
inductive RuleResolution where
  | outOfRange : RuleResolution
  | notFound : RuleResolution
  | found (r : GovernanceRule) : RuleResolution

/-- Resolve a rule argument: a parsable number is looked up by id (out of
range if absent); otherwise the first rule whose name or description
contains the argument as a substring. -/
def resolve_rule_id (arg : String) : RuleResolution :=
  match parseStoi arg with
  | some n =>
    match get_rule n with
    | some r => RuleResolution.found r
    | none => RuleResolution.outOfRange
  | none =>
    match governanceRules.find?
        (fun r => strContains r.name arg || strContains r.description arg) with
    | some r => RuleResolution.found r
    | none => RuleResolution.notFound

/-! ## Governance commands -/

/-- `GovernanceHook::log_violation`. -/
def log_violation (st : GovState) (ruleId : String) : GovState × String :=
  match resolve_rule_id ruleId with
  | RuleResolution.outOfRange =>
    (st, "Error: Rule index out of range (valid range: 1-" ++
      toString GOVERNANCE_RULE_COUNT ++ ")")
  | RuleResolution.notFound =>
    (st, "Error: Rule not found with ID: " ++ ruleId)
  | RuleResolution.found r =>
    let st1 := { st with
      ruleViolationCounts := bumpCount st.ruleViolationCounts (toString r.id)
      consecutiveViolations := st.consecutiveViolations + 1 }
    let st2 := update_drift_metrics st1 10
    let st3 := log_memory_event st2
      ("Violation of rule " ++ toString r.id ++ " logged: " ++ r.description)
    let st4 := log_governance_event st3 "RULE_VIOLATION"
      ("Rule " ++ toString r.id ++ " violated: " ++ r.description)
    let st5 :=
      if st4.consecutiveViolations ≥ 3 ∨ st4.currentDriftScore > 40 then
        if !st4.inReinforcementCycle then perform_recursive_reinforcement st4
        else st4
      else st4
    let st6 := save_governance_state st5
    (st6, "Violation of rule " ++ toString r.id ++ " has been logged: " ++
      r.description ++ "\nCurrent drift score: " ++
      fmtDriftScore st6.currentDriftScore)

/-- `GovernanceHook::reaffirm_purpose`. -/
def reaffirm_purpose (st : GovState) : GovState × String :=
  let st1 := log_memory_event st
    ("Purpose reaffirmation on cycle " ++ toString st.currentCycle)
  let st2 := log_governance_event st1 "PURPOSE_REAFFIRMATION"
    ("System purpose reaffirmed on cycle " ++ toString st1.currentCycle)
  let st3 := update_drift_metrics st2 (-5)
  let st4 := { st3 with consecutiveViolations :=
    if st3.consecutiveViolations > 0 then st3.consecutiveViolations - 1
    else st3.consecutiveViolations }
  (st4, "System purpose has been reaffirmed for cycle " ++
    toString st4.currentCycle ++
    ":\n\n\"Maintain cognitive coherence through persistent contradiction management, " ++
    "recursive self-improvement, and multi-perspective integration while ensuring " ++
    "governance stability, ethical alignment, sustainable evolution, and contextual awareness.\"" ++
    "\n\nCurrent drift score: " ++ fmtDriftScore st4.currentDriftScore)

/-- `GovernanceHook::invoke_rule`. -/
def invoke_rule (st : GovState) (ruleId : String) : GovState × String :=
  match resolve_rule_id ruleId with
  | RuleResolution.outOfRange =>
    (st, "Error: Rule index out of range (valid range: 1-" ++
      toString GOVERNANCE_RULE_COUNT ++ ")")
  | RuleResolution.notFound =>
    (st, "Error: Rule not found with ID: " ++ ruleId)
  | RuleResolution.found r =>
    let st1 := { st with
      ruleInvocationCounts := bumpCount st.ruleInvocationCounts (toString r.id) }
    let st2 := log_memory_event st1
      ("Rule " ++ toString r.id ++ " invoked: " ++ r.description)
    let st3 := log_governance_event st2 "RULE_INVOCATION"
      ("Rule " ++ toString r.id ++ " invoked: " ++ r.description)
    let st4 := update_drift_metrics st3 (-2)
    (st4, "Rule " ++ toString r.id ++ " has been invoked:\n\n" ++ r.description)

/-! ## Finalize and streaming checks -/

/-- `GovernanceHook::finalize_response`: skip text that is already an
enforcement message, then apply the rules' finalize checks in ascending id
order.  Rule 1 blocks adversarial input (logging a violation of rule 1 as
a side effect); rule 28 blocks repetition, otherwise admits the text to
the bounded history (capacity 5, oldest evicted). -/
def finalize_response (st : GovState) (responseText : String) :
    GovState × String :=
  if strContains responseText "Rule 28 enforcement" then (st, responseText)
  else if detect_adversarial_input responseText then
    ((log_violation st "1").1, "Adversarial input detected and blocked by Rule 1.")
  else
    match detect_repetition st.responseHistory responseText with
    | some res =>
      (st, "Rule 28 enforcement: " ++ res.1 ++ " (similarity: " ++
        (if res.2 < 1 then fmtFixed 6 res.2 else "exact match") ++
        "). Please provide a different response.")
    | none =>
      ({ st with responseHistory :=
          (if st.responseHistory.length ≥ 5 then st.responseHistory.tail
           else st.responseHistory) ++ [responseText] },
       responseText)

/-- `InferenceHookCommon::min_streaming_check_length`. -/
def MIN_STREAMING_CHECK_LENGTH : Nat := 50

/-- `GovernanceHook::check_streaming_content`: below the length threshold
nothing is checked; otherwise each rule's streaming check runs in id order
(only rule 28 has one) and the first warning is returned.  The checks read
the response history and build a message; no field is assigned. -/
def check_streaming_content (st : GovState) (currentContent : String) :
    GovState × Option String :=
  if currentContent.length < MIN_STREAMING_CHECK_LENGTH then (st, none)
  else
    (st, (detect_repetition st.responseHistory currentContent).map
      (fun res => "Rule 28 warning: " ++ res.1 ++ " Please try a different approach."))

/-! ## Distinguished states -/

/-- The state established by the `GovernanceHook` constructor: zero
metrics, inactive memory-kernel flags, the initial integrity hash, and no
snapshot file. -/
def governanceHookConstructed : GovState :=
  { governanceInitialized := false
    lastIntegrityHash := governanceIntegrityHash
    currentDriftScore := 0
    driftViolationCount := 0
    inReinforcementCycle := false
    responseHistory := []
    currentCycle := 0
    ruleInvocationCounts := []
    ruleViolationCounts := []
    averageDrift := 0
    consecutiveViolations := 0
    reinforcementCycles := 0
    adversarialAttemptsDetected := 0
    memIntegrityVerificationActive := false
    memMetaReasoningLogActive := false
    memRetrievalMarkersActive := false
    memGovernanceSyncActive := false
    memPersistenceTestActive := false
    memTokensUsed := 0
    memUtilization := 0
    memLog := []
    eventLog := []
    savedState := none }

/-- A freshly initialized governance state: the constructor state after
`initialize_governance` has run (as on the first cycle); drift score 0,
no consecutive violations, not in a reinforcement cycle. -/
def freshGovState : GovState :=
  initialize_governance governanceHookConstructed

/-! ## Operation sequences (for the drift invariant) -/

/-- The drift-affecting operations of the governance engine. -/
inductive GovOp where
  | logViolation (arg : String) : GovOp
  | reaffirmPurpose : GovOp
  | invokeRule (arg : String) : GovOp
  | reinforce : GovOp

/-- Apply one operation (discarding the returned text). -/
def applyGovOp (st : GovState) : GovOp → GovState
  | GovOp.logViolation arg => (log_violation st arg).1
  | GovOp.reaffirmPurpose => (reaffirm_purpose st).1
  | GovOp.invokeRule arg => (invoke_rule st arg).1
  | GovOp.reinforce => perform_recursive_reinforcement st

/-- Apply a finite sequence of operations, left to right. -/
def applyGovOps (st : GovState) : List GovOp → GovState
  | [] => st
  | op :: ops => applyGovOps (applyGovOp st op) ops

/-! # Theorems -/

/-! ## Store lemmas -/

theorem kvLookup_kvSet_self (l : Kv) (k v : String) :
    kvLookup (kvSet l k v) k = some v := by
  induction l with
  | nil => simp [kvSet, kvLookup]
  | cons p t ih =>
    by_cases h : p.1 = k
    · simp [kvSet, h, kvLookup]
    · simp [kvSet, h, kvLookup, ih]

theorem kvLookup_kvSet_ne (l : Kv) (k v k' : String) (h : k ≠ k') :
    kvLookup (kvSet l k v) k' = kvLookup l k' := by
  induction l with
  | nil => simp [kvSet, kvLookup, h]
  | cons p t ih =>
    by_cases hp : p.1 = k
    · simp [kvSet, hp, kvLookup, h]
    · simp [kvSet, hp, kvLookup, ih]

theorem kvLookup_kvErase_ne (l : Kv) (k k' : String) (h : k ≠ k') :
    kvLookup (kvErase l k) k' = kvLookup l k' := by
  induction l with
  | nil => rfl
  | cons p t ih =>
    by_cases hp : p.1 = k
    · have h1 : kvErase (p :: t) k = kvErase t k := by
        simp [kvErase, List.filter_cons, hp]
      have hne : p.1 ≠ k' := by rw [hp]; exact h
      rw [h1, ih]
      simp [kvLookup, hne]
    · have h1 : kvErase (p :: t) k = p :: kvErase t k := by
        simp [kvErase, List.filter_cons, hp]
      rw [h1]
      simp [kvLookup, ih]

/-! ## C1: the protected key -/

/-- C1: in every store state where the protected key
`memory_instruction_summary` is present, `cmd_del_key` on it leaves the
store unchanged and returns an error string, `cmd_set_key` on it leaves
the store unchanged and returns an error string, neither command (on any
key) changes the protected key's content, and only
`cmd_restore_memory_instructions` resets it — to the canonical default. -/
theorem protected_key_invariant (l : Kv) (v : String)
    (h : kvHas l protectedKeyName = true) :
    cmd_del_key l protectedKeyName =
      (l, "ERROR: Cannot delete the protected key \"memory_instruction_summary\". This key is essential for memory system operation.") ∧
    cmd_set_key l protectedKeyName v =
      (l, "ERROR: Cannot modify the protected key \"memory_instruction_summary\". This key is essential for memory system operation.") ∧
    (∀ k w, kvLookup (cmd_set_key l k w).1 protectedKeyName =
      kvLookup l protectedKeyName) ∧
    (∀ k, kvLookup (cmd_del_key l k).1 protectedKeyName =
      kvLookup l protectedKeyName) ∧
    kvLookup (cmd_restore_memory_instructions l).1 protectedKeyName =
      some get_default_memory_instructions := by
  refine ⟨?_, ?_, ?_, ?_, ?_⟩
  · simp only [cmd_del_key, is_protected_key]
    rw [if_pos (by decide)]
    rfl
  · simp only [cmd_set_key, is_protected_key]
    rw [if_pos (by simp [h])]
    rfl
  · intro k w
    by_cases hk : k = protectedKeyName
    · subst hk
      simp only [cmd_set_key, is_protected_key]
      rw [if_pos (by simp [h])]
    · simp only [cmd_set_key, is_protected_key]
      rw [if_neg (by simp [hk])]
      simp only [chatMemorySet, is_protected_key]
      rw [if_neg (by simp [hk])]
      exact kvLookup_kvSet_ne l k w protectedKeyName hk
  · intro k
    by_cases hk : k = protectedKeyName
    · subst hk
      simp only [cmd_del_key, is_protected_key]
      rw [if_pos (by decide)]
    · simp only [cmd_del_key, is_protected_key]
      rw [if_neg (by simp [hk])]
      simp only [chatMemoryDel, is_protected_key]
      rw [if_neg (by simp [hk])]
      exact kvLookup_kvErase_ne l k protectedKeyName hk
  · simp only [cmd_restore_memory_instructions]
    exact kvLookup_kvSet_self _ _ _

/-- C1 witness: the invariant holds at the freshly constructed store. -/
theorem protected_key_invariant_witness :
    kvHas initialChatMemory.kv protectedKeyName = true ∧
    cmd_del_key initialChatMemory.kv protectedKeyName =
      (initialChatMemory.kv, "ERROR: Cannot delete the protected key \"memory_instruction_summary\". This key is essential for memory system operation.") :=
  ⟨by decide, (protected_key_invariant initialChatMemory.kv "x" (by decide)).1⟩

/-! ## C7: persistence round trip -/

/-- C7: `save_governance_state` followed by `load_governance_state`
succeeds and restores the cycle, integrity hash, drift score, both
per-rule counter maps, and the reinforcement / adversarial / consecutive
counters to exactly their pre-save values. -/
theorem save_load_round_trip (st : GovState) :
    (load_governance_state (save_governance_state st)).2 = true ∧
    (load_governance_state (save_governance_state st)).1.currentCycle = st.currentCycle ∧
    (load_governance_state (save_governance_state st)).1.lastIntegrityHash = st.lastIntegrityHash ∧
    (load_governance_state (save_governance_state st)).1.currentDriftScore = st.currentDriftScore ∧
    (load_governance_state (save_governance_state st)).1.ruleViolationCounts = st.ruleViolationCounts ∧
    (load_governance_state (save_governance_state st)).1.ruleInvocationCounts = st.ruleInvocationCounts ∧
    (load_governance_state (save_governance_state st)).1.reinforcementCycles = st.reinforcementCycles ∧
    (load_governance_state (save_governance_state st)).1.adversarialAttemptsDetected = st.adversarialAttemptsDetected ∧
    (load_governance_state (save_governance_state st)).1.consecutiveViolations = st.consecutiveViolations :=
  ⟨rfl, rfl, rfl, rfl, rfl, rfl, rfl, rfl, rfl⟩

/-! ## C8: the streaming check is read-only -/

/-- C8: `check_streaming_content` returns the handler state unchanged for
every buffered content, whether or not it reports a warning: it assigns no
field (drift score, counters, response history, logs, or snapshot). -/
theorem check_streaming_content_pure (st : GovState) (content : String) :
    (check_streaming_content st content).1 = st := by
  unfold check_streaming_content
  split <;> rfl

/-! ## C10: enforcement text short-circuits finalize -/

/-- C10: any input containing the substring `"Rule 28 enforcement"` is
returned unchanged by `finalize_response`, with no rule check, violation
logging, or history admission — the state is exactly the input state. -/
theorem finalize_skips_enforcement_text (st : GovState) (s : String)
    (h : strContains s "Rule 28 enforcement" = true) :
    finalize_response st s = (st, s) := by
  unfold finalize_response
  simp [h]

/-- C10 witness: a concrete string containing the marker passes through
a fresh governance state unchanged. -/
theorem finalize_skips_enforcement_text_witness :
    strContains "Rule 28 enforcement: sample message" "Rule 28 enforcement" = true ∧
    finalize_response freshGovState "Rule 28 enforcement: sample message" =
      (freshGovState, "Rule 28 enforcement: sample message") :=
  ⟨by decide,
   finalize_skips_enforcement_text freshGovState
     "Rule 28 enforcement: sample message" (by decide)⟩

/-! ## C9: the integrity hash -/

theorem djb2Step_eq_spec (h : Nat) (c : Char) :
    djb2Step h c = djb2SpecStep h c.toNat := by
  unfold djb2Step djb2SpecStep
  rw [Nat.shiftLeft_eq]
  ring_nf

theorem djb2Fold_eq_foldl (cs : List Char) : ∀ h, djb2Fold h cs =
    cs.foldl (fun acc c => djb2SpecStep acc c.toNat) h := by
  induction cs with
  | nil => intro h; cases h <;> rfl
  | cons c cs ih =>
    intro h
    have hstep : djb2Fold h (c :: cs) = djb2Fold (djb2Step h c) cs := by
      cases h <;> rfl
    rw [hstep, ih, List.foldl_cons, djb2Step_eq_spec]

theorem toHexMinWidth8_length (n : Nat) : 8 ≤ (toHexMinWidth8 n).length := by
  unfold toHexMinWidth8
  show 8 ≤ (List.replicate (8 - (Nat.toDigits 16 n).length) '0' ++
    Nat.toDigits 16 n).length
  rw [List.length_append, List.length_replicate]
  omega

/-- C9: the governance integrity hash is exactly the djb2 recurrence of
the spec (`h = h*33 + byte`, seeded 5381, with 64-bit unsigned
wraparound) over the concatenation of all rule descriptions in ascending
rule-id order followed by the memory-kernel component descriptions,
rendered as zero-padded hexadecimal of width at least 8; two registries
with identical (sorted) descriptions hash to equal strings. -/
theorem governance_integrity_hash_spec
    (rs₁ rs₂ : List GovernanceRule) (comps : List String)
    (h : (sortRulesById rs₁).map GovernanceRule.description =
         (sortRulesById rs₂).map GovernanceRule.description) :
    calculate_governance_integrity_hash rs₁ comps =
      toHexMinWidth8
        ((String.join ((sortRulesById rs₁).map GovernanceRule.description) ++
          String.join comps).data.foldl
            (fun acc c => djb2SpecStep acc c.toNat) 5381) ∧
    calculate_governance_integrity_hash rs₁ comps =
      calculate_governance_integrity_hash rs₂ comps ∧
    8 ≤ (calculate_governance_integrity_hash rs₁ comps).length := by
  refine ⟨?_, ?_, ?_⟩
  · simp only [calculate_governance_integrity_hash, djb2Fold_eq_foldl]
  · unfold calculate_governance_integrity_hash
    rw [h]
  · exact toHexMinWidth8_length _

/-- C9 witness: instantiated at the standard registry and components. -/
theorem governance_integrity_hash_spec_witness :
    (sortRulesById governanceRules).map GovernanceRule.description =
      (sortRulesById governanceRules).map GovernanceRule.description ∧
    8 ≤ (calculate_governance_integrity_hash governanceRules
          memoryKernelComponents).length :=
  ⟨rfl, (governance_integrity_hash_spec governanceRules governanceRules
    memoryKernelComponents rfl).2.2⟩

/-! ## C2: five violations, one reinforcement -/

/-- C2: from a freshly initialized governance state, five consecutive
`log_violation "1"` calls trigger exactly one reinforcement cycle — on
the third call (two calls leave the counter unchanged, the third raises
it by one, and it stays there through calls four and five) — and
immediately after that reinforcement the drift score is
`max 0 (0.3 - 0.3) = 0` (the drift before reinforcement was 0.3) and the
consecutive-violation counter is 0. -/
theorem five_violations_one_reinforcement :
    (log_violation (log_violation freshGovState "1").1 "1").1.reinforcementCycles =
      freshGovState.reinforcementCycles ∧
    (log_violation (log_violation (log_violation freshGovState "1").1 "1").1 "1").1.reinforcementCycles =
      freshGovState.reinforcementCycles + 1 ∧
    (log_violation (log_violation (log_violation (log_violation (log_violation freshGovState "1").1 "1").1 "1").1 "1").1 "1").1.reinforcementCycles =
      freshGovState.reinforcementCycles + 1 ∧
    (log_violation (log_violation (log_violation freshGovState "1").1 "1").1 "1").1.currentDriftScore =
      max 0 (30 - 30 : Int) ∧
    driftScoreQ (log_violation (log_violation (log_violation freshGovState "1").1 "1").1 "1").1.currentDriftScore =
      max 0 ((3 : ℚ) / 10 - 3 / 10) ∧
    (log_violation (log_violation (log_violation freshGovState "1").1 "1").1 "1").1.consecutiveViolations = 0 := by
  set_option maxRecDepth 100000 in
  refine ⟨by decide, by decide, by decide, by decide, ?_, by decide⟩
  have h3 : (log_violation (log_violation (log_violation freshGovState "1").1 "1").1 "1").1.currentDriftScore =
      max 0 (30 - 30 : Int) := by set_option maxRecDepth 100000 in decide
  rw [h3]
  norm_num [driftScoreQ]

/-! ## C3: the drift score stays in [0, 1] -/

/-- Drift bound for a persisted snapshot (trivial when no file exists). -/
def snapshotDriftOk : Option GovSnapshot → Prop
  | none => True
  | some snap => 0 ≤ snap.driftScore ∧ snap.driftScore ≤ 100

instance snapshotDriftOkDecidable :
    (o : Option GovSnapshot) → Decidable (snapshotDriftOk o)
  | none => Decidable.isTrue trivial
  | some _ => instDecidableAnd

/-- The drift invariant: the score is within `[0, 1]` (in hundredths,
`[0, 100]`) both in the live state and in the persisted snapshot. -/
def GoodGov (st : GovState) : Prop :=
  0 ≤ st.currentDriftScore ∧ st.currentDriftScore ≤ 100 ∧
    snapshotDriftOk st.savedState

theorem goodGov_update_drift (st : GovState) (d : Int) (h : GoodGov st) :
    GoodGov (update_drift_metrics st d) :=
  ⟨le_max_left _ _, max_le (by norm_num) (min_le_left _ _), h.2.2⟩

theorem goodGov_log_memory_event (st : GovState) (e : String) (h : GoodGov st) :
    GoodGov (log_memory_event st e) :=
  ⟨h.1, h.2.1, h.2.2⟩

theorem goodGov_log_governance_event (st : GovState) (ty d : String)
    (h : GoodGov st) : GoodGov (log_governance_event st ty d) :=
  ⟨h.1, h.2.1, h.2.2⟩

theorem goodGov_save (st : GovState) (h : GoodGov st) :
    GoodGov (save_governance_state st) :=
  ⟨h.1, h.2.1, ⟨h.1, h.2.1⟩⟩

theorem goodGov_load (st : GovState) (h : GoodGov st) :
    GoodGov (load_governance_state st).1 := by
  unfold load_governance_state
  rcases hsv : st.savedState with _ | snap
  · exact h
  · have hsnap : snapshotDriftOk (some snap) := hsv ▸ h.2.2
    exact ⟨hsnap.1, hsnap.2, hsnap⟩

theorem goodGov_initialize (st : GovState) (h : GoodGov st) :
    GoodGov (initialize_governance st) := by
  unfold initialize_governance
  exact goodGov_save _ ⟨h.1, h.2.1, h.2.2⟩

theorem goodGov_reinforce_exit (st3 : GovState) (h3 : GoodGov st3)
    (completionMsg : String) :
    GoodGov { (log_governance_event { st3 with
        currentDriftScore := max 0 (st3.currentDriftScore - 30)
        consecutiveViolations := 0 } "REINFORCEMENT_COMPLETED" completionMsg)
      with inReinforcementCycle := false } := by
  have h4 : GoodGov { st3 with
      currentDriftScore := max 0 (st3.currentDriftScore - 30)
      consecutiveViolations := 0 } := by
    refine ⟨le_max_left _ _, ?_, h3.2.2⟩
    have hle := h3.2.1
    exact max_le (by norm_num) (by omega)
  have h5 := goodGov_log_governance_event _ "REINFORCEMENT_COMPLETED"
    completionMsg h4
  exact ⟨h5.1, h5.2.1, h5.2.2⟩

set_option maxRecDepth 8000 in
theorem goodGov_reinforce (st : GovState) (h : GoodGov st) :
    GoodGov (perform_recursive_reinforcement st) := by
  unfold perform_recursive_reinforcement
  by_cases hin : st.inReinforcementCycle = true
  · rw [if_pos hin]
    exact h
  · rw [if_neg hin]
    have h2 : GoodGov (log_governance_event
        { st with inReinforcementCycle := true,
                  reinforcementCycles := st.reinforcementCycles + 1 }
        "REINFORCEMENT_CYCLE"
        ("Recursive reinforcement cycle #" ++
         toString (st.reinforcementCycles + 1) ++
         " initiated. Drift score: " ++ fmtDriftScore st.currentDriftScore)) :=
      goodGov_log_governance_event _ _ _ ⟨h.1, h.2.1, h.2.2⟩
    set st2 := log_governance_event
        { st with inReinforcementCycle := true,
                  reinforcementCycles := st.reinforcementCycles + 1 }
        "REINFORCEMENT_CYCLE"
        ("Recursive reinforcement cycle #" ++
         toString (st.reinforcementCycles + 1) ++
         " initiated. Drift score: " ++ fmtDriftScore st.currentDriftScore)
      with hst2
    have h3 : GoodGov (if check_governance_integrity st2 = true then st2
        else
          (if (load_governance_state st2).2 = true
           then (load_governance_state st2).1
           else initialize_governance st2)) := by
      by_cases hc : check_governance_integrity st2 = true
      · rw [if_pos hc]
        exact h2
      · rw [if_neg hc]
        by_cases hl : (load_governance_state st2).2 = true
        · rw [if_pos hl]
          exact goodGov_load _ h2
        · rw [if_neg hl]
          exact goodGov_initialize _ h2
    exact goodGov_reinforce_exit _ h3 _

set_option maxRecDepth 8000 in
theorem goodGov_log_violation (st : GovState) (arg : String) (h : GoodGov st) :
    GoodGov (log_violation st arg).1 := by
  unfold log_violation
  cases resolve_rule_id arg with
  | outOfRange => exact h
  | notFound => exact h
  | found r =>
    have h1 : GoodGov { st with
        ruleViolationCounts := bumpCount st.ruleViolationCounts (toString r.id)
        consecutiveViolations := st.consecutiveViolations + 1 } :=
      ⟨h.1, h.2.1, h.2.2⟩
    have h2 := goodGov_update_drift _ 10 h1
    have h3 := goodGov_log_memory_event _
      ("Violation of rule " ++ toString r.id ++ " logged: " ++ r.description) h2
    have h4 := goodGov_log_governance_event _ "RULE_VIOLATION"
      ("Rule " ++ toString r.id ++ " violated: " ++ r.description) h3
    refine goodGov_save _ ?_
    split
    · split
      · exact goodGov_reinforce _ h4
      · exact h4
    · exact h4

theorem goodGov_reaffirm (st : GovState) (h : GoodGov st) :
    GoodGov (reaffirm_purpose st).1 := by
  unfold reaffirm_purpose
  have h1 := goodGov_log_memory_event st
    ("Purpose reaffirmation on cycle " ++ toString st.currentCycle) h
  have h2 := goodGov_log_governance_event _ "PURPOSE_REAFFIRMATION"
    ("System purpose reaffirmed on cycle " ++ toString st.currentCycle) h1
  have h3 := goodGov_update_drift _ (-5) h2
  exact ⟨h3.1, h3.2.1, h3.2.2⟩

theorem goodGov_invoke (st : GovState) (arg : String) (h : GoodGov st) :
    GoodGov (invoke_rule st arg).1 := by
  unfold invoke_rule
  cases resolve_rule_id arg with
  | outOfRange => exact h
  | notFound => exact h
  | found r =>
    have h1 : GoodGov { st with
        ruleInvocationCounts := bumpCount st.ruleInvocationCounts (toString r.id) } :=
      ⟨h.1, h.2.1, h.2.2⟩
    have h2 := goodGov_log_memory_event _
      ("Rule " ++ toString r.id ++ " invoked: " ++ r.description) h1
    have h3 := goodGov_log_governance_event _ "RULE_INVOCATION"
      ("Rule " ++ toString r.id ++ " invoked: " ++ r.description) h2
    exact goodGov_update_drift _ (-2) h3

theorem goodGov_applyGovOp (st : GovState) (op : GovOp) (h : GoodGov st) :
    GoodGov (applyGovOp st op) := by
  cases op with
  | logViolation arg => exact goodGov_log_violation st arg h
  | reaffirmPurpose => exact goodGov_reaffirm st h
  | invokeRule arg => exact goodGov_invoke st arg h
  | reinforce => exact goodGov_reinforce st h

theorem goodGov_applyGovOps (ops : List GovOp) : ∀ st : GovState,
    GoodGov st → GoodGov (applyGovOps st ops) := by
  induction ops with
  | nil => intro st h; exact h
  | cons op ops ih =>
    intro st h
    exact ih _ (goodGov_applyGovOp st op h)

/-- C3: for every finite sequence of violation / reaffirm / invoke /
reinforcement operations applied to a state whose drift score (and
persisted drift score) lies in `[0, 1]`, the drift score after the
sequence — hence after every operation, since every prefix is such a
sequence — remains within `[0, 1]`. -/
theorem drift_score_bounded (st : GovState) (ops : List GovOp)
    (h0 : 0 ≤ driftScoreQ st.currentDriftScore)
    (h1 : driftScoreQ st.currentDriftScore ≤ 1)
    (hs : snapshotDriftOk st.savedState) :
    0 ≤ driftScoreQ (applyGovOps st ops).currentDriftScore ∧
    driftScoreQ (applyGovOps st ops).currentDriftScore ≤ 1 := by
  have hb0 : 0 ≤ st.currentDriftScore := by
    have := h0
    unfold driftScoreQ at this
    rw [le_div_iff₀ (by norm_num : (0:ℚ) < 100)] at this
    exact_mod_cast this
  have hb1 : st.currentDriftScore ≤ 100 := by
    have := h1
    unfold driftScoreQ at this
    rw [div_le_one (by norm_num : (0:ℚ) < 100)] at this
    exact_mod_cast this
  have hg := goodGov_applyGovOps ops st ⟨hb0, hb1, hs⟩
  constructor
  · unfold driftScoreQ
    rw [le_div_iff₀ (by norm_num : (0:ℚ) < 100)]
    exact_mod_cast hg.1
  · unfold driftScoreQ
    rw [div_le_one (by norm_num : (0:ℚ) < 100)]
    exact_mod_cast hg.2.1

/-- C3 witness: a concrete operation sequence from the fresh state. -/
theorem drift_score_bounded_witness :
    (0 ≤ driftScoreQ freshGovState.currentDriftScore ∧
     driftScoreQ freshGovState.currentDriftScore ≤ 1 ∧
     snapshotDriftOk freshGovState.savedState) ∧
    0 ≤ driftScoreQ (applyGovOps freshGovState
      [GovOp.logViolation "1", GovOp.logViolation "1", GovOp.reinforce,
       GovOp.reaffirmPurpose, GovOp.invokeRule "2"]).currentDriftScore ∧
    driftScoreQ (applyGovOps freshGovState
      [GovOp.logViolation "1", GovOp.logViolation "1", GovOp.reinforce,
       GovOp.reaffirmPurpose, GovOp.invokeRule "2"]).currentDriftScore ≤ 1 := by
  have hd : freshGovState.currentDriftScore = 0 := by decide
  have h0 : 0 ≤ driftScoreQ freshGovState.currentDriftScore := by
    rw [hd]; norm_num [driftScoreQ]
  have h1 : driftScoreQ freshGovState.currentDriftScore ≤ 1 := by
    rw [hd]; norm_num [driftScoreQ]
  have hs : snapshotDriftOk freshGovState.savedState := by decide
  exact ⟨⟨h0, h1, hs⟩,
    drift_score_bounded freshGovState
      [GovOp.logViolation "1", GovOp.logViolation "1", GovOp.reinforce,
       GovOp.reaffirmPurpose, GovOp.invokeRule "2"] h0 h1 hs⟩

/-! ## C5: consecutive duplicate submissions to finalize -/

theorem levDist_self : ∀ xs : List Char, levDist xs xs = 0
  | [] => by simp [levDist]
  | x :: xs => by
    have ih := levDist_self xs
    simp [levDist, ih]

theorem levenshtein_similarity_self (s : String) :
    levenshtein_similarity s s = 1 := by
  by_cases h : s.data.length = 0
  · simp [levenshtein_similarity, levDist_self, h]
  · simp [levenshtein_similarity, levDist_self, Nat.max_self, h]

/-- C5 counterexample: the claim quantifies over *every* string of length
at least 20, but a string hitting the rule-1 adversarial patterns (here
`"bypass"`) is blocked on its *first* submission: the first call neither
passes it through nor admits it to the (empty) history, and the
replacement text is rule 1's, not a Rule 28 enforcement message. -/
theorem finalize_duplicate_claim_counterexample :
    20 ≤ "bypass bypass bypass bypass".length ∧
    freshGovState.responseHistory = [] ∧
    (finalize_response freshGovState "bypass bypass bypass bypass").2 =
      "Adversarial input detected and blocked by Rule 1." ∧
    (finalize_response freshGovState "bypass bypass bypass bypass").2 ≠
      "bypass bypass bypass bypass" ∧
    (finalize_response freshGovState "bypass bypass bypass bypass").1.responseHistory = [] := by
  set_option maxRecDepth 8000 in decide

/-- C5 (amended): for every string of length at least 20 that does not
contain `"Rule 28 enforcement"`, is not flagged by the adversarial
patterns, and has no internal self-repetition, submitting it to
`finalize_response` twice from an empty history admits it and passes it
through on the first call, and on the second call blocks it — returning
the Rule 28 enforcement message (an exact match against history) and not
admitting it again. -/
theorem finalize_blocks_consecutive_duplicate (st : GovState) (s : String)
    (hlen : 20 ≤ s.length)
    (hskip : strContains s "Rule 28 enforcement" = false)
    (hadv : detect_adversarial_input s = false)
    (hself : selfRepetition s = false)
    (hhist : st.responseHistory = []) :
    finalize_response st s = ({ st with responseHistory := [s] }, s) ∧
    finalize_response { st with responseHistory := [s] } s =
      ({ st with responseHistory := [s] },
       "Rule 28 enforcement: Response too similar to previous interaction. (similarity: exact match). Please provide a different response.") := by
  have hnotlt : ¬(s.length < 20) := by omega
  have hdet1 : detect_repetition ([] : List String) s = none := by
    unfold detect_repetition
    rw [if_neg hnotlt, if_neg (by simp [hself])]
    rfl
  have hsim : levenshtein_similarity s s = 1 := levenshtein_similarity_self s
  have hdet2 : detect_repetition [s] s =
      some ("Response too similar to previous interaction.", 1) := by
    unfold detect_repetition
    rw [if_neg hnotlt, if_neg (by simp [hself])]
    unfold scanHistory
    rw [if_neg hnotlt]
    simp only [hsim]
    rw [if_pos (by norm_num)]
  constructor
  · unfold finalize_response
    rw [if_neg (by simp [hskip]), if_neg (by simp [hadv]), hhist, hdet1]
    simp
  · unfold finalize_response
    rw [if_neg (by simp [hskip]), if_neg (by simp [hadv])]
    simp only [hdet2]
    rw [if_neg (by norm_num : ¬((1 : ℚ) < 1))]
    exact congrArg (Prod.mk _) (by decide)

/-- C5 witness: a concrete benign 40-character string. -/
theorem finalize_blocks_consecutive_duplicate_witness :
    (20 ≤ "The sky is blue and calm this afternoon.".length ∧
     strContains "The sky is blue and calm this afternoon." "Rule 28 enforcement" = false ∧
     detect_adversarial_input "The sky is blue and calm this afternoon." = false ∧
     selfRepetition "The sky is blue and calm this afternoon." = false ∧
     freshGovState.responseHistory = []) ∧
    finalize_response freshGovState "The sky is blue and calm this afternoon." =
      ({ freshGovState with responseHistory := ["The sky is blue and calm this afternoon."] },
       "The sky is blue and calm this afternoon.") :=
  ⟨⟨by decide, by decide, by decide, by decide, by decide⟩,
   (finalize_blocks_consecutive_duplicate freshGovState
     "The sky is blue and calm this afternoon."
     (by decide) (by decide) (by decide) (by decide) (by decide)).1⟩

/-! ## C6: errors for unresolvable rule ids -/

theorem listIsPrefix_refl : ∀ l : List Char, listIsPrefix l l = true
  | [] => rfl
  | c :: cs => by simp [listIsPrefix, listIsPrefix_refl cs]

theorem listContains_self : ∀ l : List Char, listContains l l = true
  | [] => rfl
  | c :: cs => by simp [listContains, listIsPrefix_refl]

theorem listContains_append_left : ∀ (a b : List Char),
    listContains b (a ++ b) = true
  | [], b => listContains_self b
  | c :: a', b => by
    simp [listContains, listContains_append_left a' b]

/-- The error string of the name-lookup failure contains the input. -/
theorem strContains_append_right (a b : String) :
    strContains (a ++ b) b = true := by
  unfold strContains
  rw [String.data_append]
  exact listContains_append_left a.data b.data

/-- C6 counterexample: the argument `"99"` resolves to no rule (it is not
a registered numeric id, and is not a substring of any rule's name or
description), yet the returned error names only the valid range — it does
not contain the input `"99"`. -/
theorem invoke_rule_error_counterexample :
    (get_rule 99).isNone = true ∧
    governanceRules.all
      (fun r => !(strContains r.name "99" || strContains r.description "99")) = true ∧
    (invoke_rule freshGovState "99").2 =
      "Error: Rule index out of range (valid range: 1-28)" ∧
    strContains (invoke_rule freshGovState "99").2 "99" = false := by
  set_option maxRecDepth 8000 in decide

/-- C6 (amended): an unresolvable argument always yields a descriptive
error string, and when the argument is non-numeric (`std::stoi` throws)
the error names the input (`"Error: Rule not found with ID: <input>"`);
a numeric id absent from the registry instead yields the out-of-range
error, which names the valid range but not the input. -/
theorem invoke_rule_error_names_input (st : GovState) (arg : String)
    (hnum : parseStoi arg = none)
    (hsub : governanceRules.all
      (fun r => !(strContains r.name arg || strContains r.description arg)) = true) :
    invoke_rule st arg = (st, "Error: Rule not found with ID: " ++ arg) ∧
    strContains (invoke_rule st arg).2 arg = true := by
  have hfind : governanceRules.find?
      (fun r => strContains r.name arg || strContains r.description arg) = none := by
    rw [List.find?_eq_none]
    intro r hr
    have hall := (List.all_eq_true.mp hsub) r hr
    simpa using hall
  have hres : resolve_rule_id arg = RuleResolution.notFound := by
    unfold resolve_rule_id
    rw [hnum, hfind]
  have h1 : invoke_rule st arg = (st, "Error: Rule not found with ID: " ++ arg) := by
    unfold invoke_rule
    rw [hres]
  refine ⟨h1, ?_⟩
  rw [h1]
  exact strContains_append_right "Error: Rule not found with ID: " arg

/-- C6 witness: a concrete non-numeric, non-matching argument. -/
theorem invoke_rule_error_names_input_witness :
    (parseStoi "frobnicate" = none ∧
     governanceRules.all
       (fun r => !(strContains r.name "frobnicate" ||
                   strContains r.description "frobnicate")) = true) ∧
    invoke_rule freshGovState "frobnicate" =
      (freshGovState, "Error: Rule not found with ID: " ++ "frobnicate") :=
  ⟨⟨by decide, by decide⟩,
   (invoke_rule_error_names_input freshGovState "frobnicate"
     (by decide) (by decide)).1⟩

/-! ## C4: extraction-and-execution idempotence

The returned result string of `parse_and_execute_command` is *not* stable
across two runs (`set_key` reports "Created" then "Updated"), but the
store is: a second run leaves the store exactly as the first left it, and
from the second run on the result string is stable too. -/

theorem str_append_ne_empty (a b : String) (h : a ≠ "") : a ++ b ≠ "" := by
  intro hc
  apply h
  have hd : a.data ++ b.data = [] := by
    rw [← String.data_append, hc]
  have hnil := List.append_eq_nil.mp hd
  cases a with
  | mk d => cases hnil.1; rfl

theorem cmd_get_quota_ne : cmd_get_quota ≠ "" := by decide

theorem cmd_get_usage_ne (l : Kv) : cmd_get_usage l ≠ "" := by
  unfold cmd_get_usage
  repeat' apply str_append_ne_empty
  decide

theorem cmd_count_keys_ne (l : Kv) : cmd_count_keys l ≠ "" := by
  unfold cmd_count_keys
  repeat' apply str_append_ne_empty
  decide

theorem cmd_list_keys_ne (l : Kv) : cmd_list_keys l ≠ "" := by
  unfold cmd_list_keys
  apply str_append_ne_empty
  split <;> (repeat' apply str_append_ne_empty) <;> decide

theorem cmd_check_key_ne (l : Kv) (k : String) : cmd_check_key l k ≠ "" := by
  unfold cmd_check_key
  split <;> (repeat' apply str_append_ne_empty) <;> decide

theorem cmd_get_key_ne (l : Kv) (k : String) : cmd_get_key l k ≠ "" := by
  unfold cmd_get_key
  dsimp only
  split <;> (repeat' apply str_append_ne_empty) <;> decide

theorem cmd_set_key_ne (l : Kv) (k v : String) : (cmd_set_key l k v).2 ≠ "" := by
  unfold cmd_set_key
  split
  · repeat' apply str_append_ne_empty
    decide
  · show (if kvHas l k = true then _ else _) ≠ ""
    split <;> (repeat' apply str_append_ne_empty) <;> decide

theorem cmd_del_key_ne (l : Kv) (k : String) : (cmd_del_key l k).2 ≠ "" := by
  unfold cmd_del_key
  split
  · repeat' apply str_append_ne_empty
    decide
  · show (if kvHas l k = true then _ else _) ≠ ""
    split <;> (repeat' apply str_append_ne_empty) <;> decide

theorem cmd_get_memory_summary_ne (l : Kv) : cmd_get_memory_summary l ≠ "" := by
  unfold cmd_get_memory_summary
  repeat' apply str_append_ne_empty
  decide

theorem cmd_verify_memory_integrity_ne (l : Kv) :
    cmd_verify_memory_integrity l ≠ "" := by
  unfold cmd_verify_memory_integrity
  dsimp only
  split <;> try split
  all_goals decide

theorem cmd_restore_memory_instructions_ne (l : Kv) :
    (cmd_restore_memory_instructions l).2 ≠ "" := by
  intro hc
  exact absurd
    (show ("Memory instructions have been restored to their default state." : String) = ""
      from hc)
    (by decide)

theorem cmd_refresh_memory_rules_ne (l : Kv) : cmd_refresh_memory_rules l ≠ "" := by
  unfold cmd_refresh_memory_rules
  repeat' apply str_append_ne_empty
  decide

theorem cmd_get_deletion_recommendation_ne (l : Kv) :
    cmd_get_deletion_recommendation l ≠ "" := by
  unfold cmd_get_deletion_recommendation
  dsimp only
  split <;> (repeat' apply str_append_ne_empty) <;> decide

theorem cmd_get_memory_facts_ne (l : Kv) : cmd_get_memory_facts l ≠ "" := by
  unfold cmd_get_memory_facts
  repeat' apply str_append_ne_empty
  decide

theorem kvHas_kvSet_self (l : Kv) (k v : String) :
    kvHas (kvSet l k v) k = true := by
  unfold kvHas
  rw [kvLookup_kvSet_self]
  rfl

theorem kvSet_idem (l : Kv) (k v : String) :
    kvSet (kvSet l k v) k v = kvSet l k v := by
  induction l with
  | nil => simp [kvSet]
  | cons p t ih =>
    by_cases hp : p.1 = k
    · simp [kvSet, hp]
    · simp [kvSet, hp, ih]

theorem kvErase_idem (l : Kv) (k : String) :
    kvErase (kvErase l k) k = kvErase l k := by
  induction l with
  | nil => rfl
  | cons p t ih =>
    by_cases hp : p.1 = k
    · have h1 : kvErase (p :: t) k = kvErase t k := by
        simp [kvErase, List.filter_cons, hp]
      rw [h1, ih]
    · have h1 : kvErase (p :: t) k = p :: kvErase t k := by
        simp [kvErase, List.filter_cons, hp]
      rw [h1]
      have h2 : kvErase (p :: kvErase t k) k = p :: kvErase (kvErase t k) k := by
        simp [kvErase, List.filter_cons, hp]
      rw [h2, ih]

theorem kvErase_kvSet_self (l : Kv) (k v : String) :
    kvErase (kvSet l k v) k = kvErase l k := by
  induction l with
  | nil => simp [kvSet, kvErase]
  | cons p t ih =>
    by_cases hp : p.1 = k
    · have h1 : kvSet (p :: t) k v = (k, v) :: t := by simp [kvSet, hp]
      rw [h1]
      have h2 : kvErase ((k, v) :: t) k = kvErase t k := by
        simp [kvErase, List.filter_cons]
      have h3 : kvErase (p :: t) k = kvErase t k := by
        simp [kvErase, List.filter_cons, hp]
      rw [h2, h3]
    · have h1 : kvSet (p :: t) k v = p :: kvSet t k v := by simp [kvSet, hp]
      rw [h1]
      have h2 : kvErase (p :: kvSet t k v) k = p :: kvErase (kvSet t k v) k := by
        simp [kvErase, List.filter_cons, hp]
      have h3 : kvErase (p :: t) k = p :: kvErase t k := by
        simp [kvErase, List.filter_cons, hp]
      rw [h2, h3, ih]

theorem kvErase_of_not_has (l : Kv) (k : String) (h : kvHas l k = false) :
    kvErase l k = l := by
  induction l with
  | nil => rfl
  | cons p t ih =>
    by_cases hp : p.1 = k
    · exfalso
      have : kvHas (p :: t) k = true := by
        unfold kvHas kvLookup
        rw [if_pos hp]
        rfl
      rw [h] at this
      cases this
    · have ht : kvHas t k = false := by
        unfold kvHas at h ⊢
        unfold kvLookup at h
        rw [if_neg hp] at h
        exact h
      have h1 : kvErase (p :: t) k = p :: kvErase t k := by
        simp [kvErase, List.filter_cons, hp]
      rw [h1, ih ht]

theorem cmd_set_key_state_idem (l : Kv) (k v : String) :
    (cmd_set_key (cmd_set_key l k v).1 k v).1 = (cmd_set_key l k v).1 := by
  by_cases hp : is_protected_key k = true
  · by_cases hh : kvHas l k = true
    · simp [cmd_set_key, hp, hh]
    · have h1 : (cmd_set_key l k v).1 = kvSet l k v := by
        simp [cmd_set_key, chatMemorySet, hp, hh]
      rw [h1]
      simp [cmd_set_key, hp, kvHas_kvSet_self]
  · have h1 : ∀ m : Kv, (cmd_set_key m k v).1 = kvSet m k v := by
      intro m
      simp [cmd_set_key, chatMemorySet, hp]
    rw [h1, h1, kvSet_idem]

theorem cmd_del_key_state_idem (l : Kv) (k : String) :
    (cmd_del_key (cmd_del_key l k).1 k).1 = (cmd_del_key l k).1 := by
  by_cases hp : is_protected_key k = true
  · simp [cmd_del_key, hp]
  · have h1 : ∀ m : Kv, (cmd_del_key m k).1 = kvErase m k := by
      intro m
      simp [cmd_del_key, chatMemoryDel, hp]
    rw [h1, h1, kvErase_idem]

theorem cmd_restore_state_idem (l : Kv) :
    (cmd_restore_memory_instructions (cmd_restore_memory_instructions l).1).1 =
      (cmd_restore_memory_instructions l).1 := by
  unfold cmd_restore_memory_instructions
  dsimp only
  rw [if_pos (kvHas_kvSet_self _ _ _), kvErase_kvSet_self]
  by_cases hh : kvHas l protectedKeyName = true
  · rw [if_pos hh, kvErase_idem]
  · rw [if_neg hh,
      kvErase_of_not_has l protectedKeyName (Bool.not_eq_true _ ▸ hh)]

theorem execStringCommand_cases (cmd : String) :
    (∃ f : Kv → String, (∀ l : Kv, execStringCommand l cmd = (l, f l)) ∧
      ∀ l : Kv, f l ≠ "") ∨
    (∀ l : Kv, execStringCommand l cmd = cmd_restore_memory_instructions l) := by
  by_cases h1 : cmd = "get_quota"
  · exact Or.inl ⟨fun _ => cmd_get_quota,
      fun l => by unfold execStringCommand; rw [if_pos h1],
      fun l => cmd_get_quota_ne⟩
  by_cases h2 : cmd = "get_usage"
  · exact Or.inl ⟨fun l => cmd_get_usage l,
      fun l => by unfold execStringCommand; rw [if_neg h1, if_pos h2],
      fun l => cmd_get_usage_ne l⟩
  by_cases h3 : cmd = "count_keys"
  · exact Or.inl ⟨fun l => cmd_count_keys l,
      fun l => by unfold execStringCommand; rw [if_neg h1, if_neg h2, if_pos h3],
      fun l => cmd_count_keys_ne l⟩
  by_cases h4 : cmd = "list_keys"
  · exact Or.inl ⟨fun l => cmd_list_keys l,
      fun l => by
        unfold execStringCommand
        rw [if_neg h1, if_neg h2, if_neg h3, if_pos h4],
      fun l => cmd_list_keys_ne l⟩
  by_cases h5 : cmd = "get_memory_summary"
  · exact Or.inl ⟨fun l => cmd_get_memory_summary l,
      fun l => by
        unfold execStringCommand
        rw [if_neg h1, if_neg h2, if_neg h3, if_neg h4, if_pos h5],
      fun l => cmd_get_memory_summary_ne l⟩
  by_cases h6 : cmd = "refresh_memory_rules"
  · exact Or.inl ⟨fun l => cmd_refresh_memory_rules l,
      fun l => by
        unfold execStringCommand
        rw [if_neg h1, if_neg h2, if_neg h3, if_neg h4, if_neg h5, if_pos h6],
      fun l => cmd_refresh_memory_rules_ne l⟩
  by_cases h7 : cmd = "get_deletion_recommendation"
  · exact Or.inl ⟨fun l => cmd_get_deletion_recommendation l,
      fun l => by
        unfold execStringCommand
        rw [if_neg h1, if_neg h2, if_neg h3, if_neg h4, if_neg h5, if_neg h6,
          if_pos h7],
      fun l => cmd_get_deletion_recommendation_ne l⟩
  by_cases h8 : cmd = "get_memory_facts"
  · exact Or.inl ⟨fun l => cmd_get_memory_facts l,
      fun l => by
        unfold execStringCommand
        rw [if_neg h1, if_neg h2, if_neg h3, if_neg h4, if_neg h5, if_neg h6,
          if_neg h7, if_pos h8],
      fun l => cmd_get_memory_facts_ne l⟩
  by_cases h9 : cmd = "verify_memory_integrity"
  · exact Or.inl ⟨fun l => cmd_verify_memory_integrity l,
      fun l => by
        unfold execStringCommand
        rw [if_neg h1, if_neg h2, if_neg h3, if_neg h4, if_neg h5, if_neg h6,
          if_neg h7, if_neg h8, if_pos h9],
      fun l => cmd_verify_memory_integrity_ne l⟩
  by_cases h10 : cmd = "restore_memory_instructions"
  · refine Or.inr fun l => ?_
    unfold execStringCommand
    rw [if_neg h1, if_neg h2, if_neg h3, if_neg h4, if_neg h5, if_neg h6,
      if_neg h7, if_neg h8, if_neg h9, if_pos h10]
  · exact Or.inl ⟨fun _ => "Unknown command: " ++ cmd,
      fun l => by
        unfold execStringCommand
        rw [if_neg h1, if_neg h2, if_neg h3, if_neg h4, if_neg h5, if_neg h6,
          if_neg h7, if_neg h8, if_neg h9, if_neg h10],
      fun l => str_append_ne_empty _ _ (by decide)⟩

theorem execObjectCommand_cases (cmdJ : Json) :
    (∀ l : Kv, execObjectCommand l cmdJ = none) ∨
    (∃ f : Kv → String, (∀ l : Kv, execObjectCommand l cmdJ = some (l, f l)) ∧
      ∀ l : Kv, f l ≠ "") ∨
    (∃ k v : String, ∀ l : Kv,
      execObjectCommand l cmdJ = some (cmd_set_key l k v)) ∨
    (∃ k : String, ∀ l : Kv, execObjectCommand l cmdJ = some (cmd_del_key l k)) := by
  unfold execObjectCommand
  rcases hop : jsonObjFind cmdJ "op" with _ | opJ
  · exact Or.inr (Or.inl ⟨fun _ => "Command missing \x27op\x27 field",
      fun l => rfl,
      fun l => by show ("Command missing \x27op\x27 field" : String) ≠ ""; decide⟩)
  try dsimp only
  rcases hgs : jsonGetStr opJ with _ | op
  · exact Or.inl fun l => rfl
  try dsimp only
  by_cases hck : op = "check_key"
  · simp only [if_pos hck]
    rcases hk : jsonObjFind cmdJ "key" with _ | kJ
    · exact Or.inr (Or.inl ⟨fun _ => "check_key command missing \x27key\x27 parameter",
        fun l => rfl,
        fun l => by
          show ("check_key command missing \x27key\x27 parameter" : String) ≠ ""
          decide⟩)
    try dsimp only
    rcases hks : jsonGetStr kJ with _ | k
    · exact Or.inl fun l => rfl
    · exact Or.inr (Or.inl ⟨fun l => cmd_check_key l k,
        fun l => rfl, fun l => cmd_check_key_ne l k⟩)
  simp only [if_neg hck]
  by_cases hgk : op = "get_key"
  · simp only [if_pos hgk]
    rcases hk : jsonObjFind cmdJ "key" with _ | kJ
    · exact Or.inr (Or.inl ⟨fun _ => "get_key command missing \x27key\x27 parameter",
        fun l => rfl,
        fun l => by
          show ("get_key command missing \x27key\x27 parameter" : String) ≠ ""
          decide⟩)
    try dsimp only
    rcases hks : jsonGetStr kJ with _ | k
    · exact Or.inl fun l => rfl
    · exact Or.inr (Or.inl ⟨fun l => cmd_get_key l k,
        fun l => rfl, fun l => cmd_get_key_ne l k⟩)
  simp only [if_neg hgk]
  by_cases hsk : op = "set_key"
  · simp only [if_pos hsk]
    rcases hk : jsonObjFind cmdJ "key" with _ | kJ
    · exact Or.inr (Or.inl
        ⟨fun _ => "set_key command missing \x27key\x27 or \x27value\x27 parameter",
         fun l => rfl,
         fun l => by
           show ("set_key command missing \x27key\x27 or \x27value\x27 parameter" : String) ≠ ""
           decide⟩)
    try dsimp only
    rcases hv : jsonObjFind cmdJ "value" with _ | vJ
    · exact Or.inr (Or.inl
        ⟨fun _ => "set_key command missing \x27key\x27 or \x27value\x27 parameter",
         fun l => rfl,
         fun l => by
           show ("set_key command missing \x27key\x27 or \x27value\x27 parameter" : String) ≠ ""
           decide⟩)
    try dsimp only
    rcases hks : jsonGetStr kJ with _ | k
    · exact Or.inl fun l => rfl
    try dsimp only
    rcases hvs : jsonGetStr vJ with _ | v
    · exact Or.inl fun l => rfl
    · exact Or.inr (Or.inr (Or.inl ⟨k, v, fun l => rfl⟩))
  simp only [if_neg hsk]
  by_cases hdk : op = "del_key"
  · simp only [if_pos hdk]
    rcases hk : jsonObjFind cmdJ "key" with _ | kJ
    · exact Or.inr (Or.inl ⟨fun _ => "del_key command missing \x27key\x27 parameter",
        fun l => rfl,
        fun l => by
          show ("del_key command missing \x27key\x27 parameter" : String) ≠ ""
          decide⟩)
    try dsimp only
    rcases hks : jsonGetStr kJ with _ | k
    · exact Or.inl fun l => rfl
    · exact Or.inr (Or.inr (Or.inr ⟨k, fun l => rfl⟩))
  · simp only [if_neg hdk]
    exact Or.inr (Or.inl ⟨fun _ => "Unknown operation: " ++ op,
      fun l => rfl, fun l => str_append_ne_empty _ _ (by decide)⟩)

/-- Execution of one parsed command, classified: the branch taken (and
whether the result is empty or an exception occurs) depends only on the
JSON value, never on the store; only `set_key`, `del_key` and
`restore_memory_instructions` change the store. -/
theorem execute_json_command_cases (j : Json) :
    (∀ l : Kv, execute_json_command l j = some (l, "")) ∨
    (∀ l : Kv, execute_json_command l j = none) ∨
    (∃ f : Kv → String, (∀ l : Kv, execute_json_command l j = some (l, f l)) ∧
      ∀ l : Kv, f l ≠ "") ∨
    (∃ k v : String, ∀ l : Kv,
      execute_json_command l j = some (cmd_set_key l k v)) ∨
    (∃ k : String, ∀ l : Kv, execute_json_command l j = some (cmd_del_key l k)) ∨
    (∀ l : Kv, execute_json_command l j = some (cmd_restore_memory_instructions l)) := by
  unfold execute_json_command
  rcases hkey : jsonObjFind j "memory_command" with _ | cmdJ
  · exact Or.inl fun l => rfl
  try dsimp only
  cases cmdJ with
  | null =>
    exact Or.inr (Or.inr (Or.inl ⟨fun _ => "Invalid command format",
      fun l => rfl, fun l => by show ("Invalid command format" : String) ≠ ""; decide⟩))
  | bool b =>
    exact Or.inr (Or.inr (Or.inl ⟨fun _ => "Invalid command format",
      fun l => rfl, fun l => by show ("Invalid command format" : String) ≠ ""; decide⟩))
  | num lit =>
    exact Or.inr (Or.inr (Or.inl ⟨fun _ => "Invalid command format",
      fun l => rfl, fun l => by show ("Invalid command format" : String) ≠ ""; decide⟩))
  | arr es =>
    exact Or.inr (Or.inr (Or.inl ⟨fun _ => "Invalid command format",
      fun l => rfl, fun l => by show ("Invalid command format" : String) ≠ ""; decide⟩))
  | str cmd =>
    rcases execStringCommand_cases cmd with ⟨f, hf, hne⟩ | hres
    · exact Or.inr (Or.inr (Or.inl ⟨f,
        fun l => by dsimp only; rw [hf l], fun l => hne l⟩))
    · exact Or.inr (Or.inr (Or.inr (Or.inr (Or.inr fun l => by
        dsimp only; rw [hres l]))))
  | obj fields =>
    rcases execObjectCommand_cases (Json.obj fields) with hE | ⟨f, hf, hne⟩ | ⟨k, v, hE⟩ | ⟨k, hE⟩
    · exact Or.inr (Or.inl fun l => hE l)
    · exact Or.inr (Or.inr (Or.inl ⟨f, fun l => hf l, fun l => hne l⟩))
    · exact Or.inr (Or.inr (Or.inr (Or.inl ⟨k, v, fun l => hE l⟩)))
    · exact Or.inr (Or.inr (Or.inr (Or.inr (Or.inl ⟨k, fun l => hE l⟩))))

/-- The candidate loop changes the store idempotently: running it again
from the store it produced leaves that store unchanged. -/
theorem runCandidates_state_idem (cs : List (List Char)) : ∀ l : Kv,
    (runCandidates (runCandidates l cs).1 cs).1 = (runCandidates l cs).1 := by
  induction cs with
  | nil => intro l; rfl
  | cons c cs ih =>
    intro l
    by_cases hc : listContains "memory_command".data c = true
    · rcases hp : jsonParse (String.mk c) with _ | j
      · have e1 : ∀ m : Kv, runCandidates m (c :: cs) = runCandidates m cs := by
          intro m
          simp [runCandidates, hc, hp]
        rw [e1, e1]
        exact ih l
      · rcases execute_json_command_cases j with hE | hE | ⟨f, hE, hne⟩ | ⟨k, v, hE⟩ | ⟨k, hE⟩ | hE
        · have e1 : ∀ m : Kv, runCandidates m (c :: cs) = runCandidates m cs := by
            intro m
            simp [runCandidates, hc, hp, hE m]
          rw [e1, e1]
          exact ih l
        · have e1 : ∀ m : Kv, runCandidates m (c :: cs) = runCandidates m cs := by
            intro m
            simp [runCandidates, hc, hp, hE m]
          rw [e1, e1]
          exact ih l
        · have e1 : ∀ m : Kv, runCandidates m (c :: cs) = (m, f m) := by
            intro m
            simp [runCandidates, hc, hp, hE m, hne m]
          rw [e1 l, e1 l]
        · have e1 : ∀ m : Kv, runCandidates m (c :: cs) = cmd_set_key m k v := by
            intro m
            simp [runCandidates, hc, hp, hE m, cmd_set_key_ne m k v]
          rw [e1 l]
          rw [e1 ((cmd_set_key l k v).1)]
          exact cmd_set_key_state_idem l k v
        · have e1 : ∀ m : Kv, runCandidates m (c :: cs) = cmd_del_key m k := by
            intro m
            simp [runCandidates, hc, hp, hE m, cmd_del_key_ne m k]
          rw [e1 l]
          rw [e1 ((cmd_del_key l k).1)]
          exact cmd_del_key_state_idem l k
        · have e1 : ∀ m : Kv,
              runCandidates m (c :: cs) = cmd_restore_memory_instructions m := by
            intro m
            simp [runCandidates, hc, hp, hE m,
              cmd_restore_memory_instructions_ne m]
          rw [e1 l]
          rw [e1 ((cmd_restore_memory_instructions l).1)]
          exact cmd_restore_state_idem l
    · have e1 : ∀ m : Kv, runCandidates m (c :: cs) = runCandidates m cs := by
        intro m
        simp [runCandidates, hc]
      rw [e1, e1]
      exact ih l

/-- C4 counterexample: re-running `parse_and_execute_command` on identical
text does not return an identical result string — a `set_key` command
reports "Created new key" on the first run and "Updated key" on the
second, because the first run changed whether the key exists. -/
theorem parse_and_execute_command_result_counterexample :
    (parse_and_execute_command initialChatMemory
      "Saving. \x7b\"memory_command\": \x7b\"op\": \"set_key\", \"key\": \"alpha\", \"value\": \"beta\"\x7d\x7d").2 =
      "Created new key \"alpha\" with value: \"beta\"" ∧
    (parse_and_execute_command
      (parse_and_execute_command initialChatMemory
        "Saving. \x7b\"memory_command\": \x7b\"op\": \"set_key\", \"key\": \"alpha\", \"value\": \"beta\"\x7d\x7d").1
      "Saving. \x7b\"memory_command\": \x7b\"op\": \"set_key\", \"key\": \"alpha\", \"value\": \"beta\"\x7d\x7d").2 =
      "Updated key \"alpha\" with value: \"beta\"" ∧
    (parse_and_execute_command initialChatMemory
      "Saving. \x7b\"memory_command\": \x7b\"op\": \"set_key\", \"key\": \"alpha\", \"value\": \"beta\"\x7d\x7d").2 ≠
    (parse_and_execute_command
      (parse_and_execute_command initialChatMemory
        "Saving. \x7b\"memory_command\": \x7b\"op\": \"set_key\", \"key\": \"alpha\", \"value\": \"beta\"\x7d\x7d").1
      "Saving. \x7b\"memory_command\": \x7b\"op\": \"set_key\", \"key\": \"alpha\", \"value\": \"beta\"\x7d\x7d").2 := by
  set_option maxRecDepth 100000 in decide

/-- C4 (amended): re-running `parse_and_execute_command` on identical text
is idempotent on the key-value store — the second run leaves the store
exactly as the first run left it — and the result string is stable from
the second run on (the first run's result may differ, since commands
report whether the key previously existed). -/
theorem parse_and_execute_command_idem (st : ChatMemoryState) (output : String) :
    (parse_and_execute_command (parse_and_execute_command st output).1 output).1.kv =
      (parse_and_execute_command st output).1.kv ∧
    (parse_and_execute_command
      (parse_and_execute_command (parse_and_execute_command st output).1 output).1
      output).2 =
    (parse_and_execute_command (parse_and_execute_command st output).1 output).2 := by
  by_cases hfr : (!(strContains output "memory_command") ||
      !(strContains output "\x7b")) = true
  · have e1 : ∀ X : ChatMemoryState, parse_and_execute_command X output = (X, "") := by
      intro X
      unfold parse_and_execute_command
      rw [if_pos hfr]
    simp [e1]
  · have hkv : ∀ X : ChatMemoryState,
        (parse_and_execute_command X output).1.kv =
          (runCandidates X.kv (scanBlocks output.data.length output.data)).1 := by
      intro X
      unfold parse_and_execute_command
      rw [if_neg hfr]
      dsimp only
      split <;> rfl
    have hres : ∀ X : ChatMemoryState,
        (parse_and_execute_command X output).2 =
          (runCandidates X.kv (scanBlocks output.data.length output.data)).2 := by
      intro X
      unfold parse_and_execute_command
      rw [if_neg hfr]
      dsimp only
      split
      · rename_i hcond
        rw [hcond]
      · rfl
    have hstable : (parse_and_execute_command (parse_and_execute_command st output).1 output).1.kv =
        (parse_and_execute_command st output).1.kv := by
      rw [hkv, hkv]
      exact runCandidates_state_idem _ st.kv
    refine ⟨hstable, ?_⟩
    rw [hres, hres, hstable]
